import Mathlib

/-!  Shallow embedding of the sysid AnalyzerPlot recomputation core
     (src/sysid-application/src/main/native/cpp/view/AnalyzerPlot.cpp),
     with the data model of include/sysid/analysis/Storage.h.

     C++ doubles are modelled as rationals, so that every computation in the
     embedding is executable and decidable; the final RMSE and R-squared
     reductions, which take square roots, are stated over the reals.  The
     mechanism simulation classes (SimpleMotorSim, ElevatorSim, ArmSim), the
     AnalysisType tags, the kMaxSize constant and GetMeanTimeDelta are
     declared in headers that are not part of this source tree, so they are
     kept abstract (a model interface, an explicit budget parameter) or are
     modelled from the spec where noted. -/

/-- PreparedData (Storage.h, lines 17-71): one cleaned data point. -/
structure PreparedData where
  timestamp : ℚ
  voltage : ℚ
  position : ℚ
  velocity : ℚ
  nextVelocity : ℚ := 0
  dt : ℚ := 0
  acceleration : ℚ := 0
  cos : ℚ := 0
deriving DecidableEq, Inhabited

/-- Storage (Storage.h, lines 76-86): the slow (quasistatic) and fast
    (dynamic) datasets. -/
structure Storage where
  slow : List PreparedData
  fast : List PreparedData
deriving DecidableEq, Inhabited

/-- The model interface used by the PopulateTimeDomainSim template.
    SimpleMotorSim, ElevatorSim and ArmSim are not under src/, so the model
    stays abstract: any state type with the Reset / Update / GetVelocity
    operations the template code calls. -/
structure MechanismModel (σ : Type) where
  Reset : ℚ → ℚ → σ
  Update : σ → ℚ → ℚ → σ
  GetVelocity : σ → ℚ

/-- AnalysisType (sysid/analysis/AnalysisType.h, not under src/): only the
    tags the plotting code branches on are distinguished: kElevator, kArm,
    and one representative tag for every other mechanism. -/
inductive AnalysisType where
  | kSimple
  | kElevator
  | kArm
deriving DecidableEq

/-- The three file-scope accumulators of AnalyzerPlot.cpp (lines 33-35). -/
structure SimAccum where
  simSquaredErrorSum : ℚ
  squaredVariationSum : ℚ
  timeSeriesPoints : ℕ
deriving DecidableEq

/-- The loop of PopulateTimeDomainSim (AnalyzerPlot.cpp lines 53-74): walk
    the samples after the first, carrying the previous sample `pre`, the
    model state, the elapsed time `t`, the open point sequence `tmp`, the
    closed sequences `pts` and the accumulators.  A sample whose timestamp
    is in startTimes closes the open sequence and resets the model from its
    measured position and velocity; any other sample advances the model with
    the previous sample's voltage and dt and emits a predicted point. -/
def PopulateLoop (model : MechanismModel σ) (startTimes : List ℚ) (startTime : ℚ) :
    List PreparedData → PreparedData → σ → ℚ → List (ℚ × ℚ) →
    List (List (ℚ × ℚ)) → SimAccum → List (List (ℚ × ℚ)) × SimAccum
  | [], _, _, _, tmp, pts, acc => (pts ++ [tmp], acc)
  | now :: rest, pre, s, t, tmp, pts, acc =>
    let t2 := t + (now.timestamp - pre.timestamp)
    if now.timestamp ∈ startTimes then
      PopulateLoop model startTimes startTime rest now
        (model.Reset now.position now.velocity) t2 [] (pts ++ [tmp]) acc
    else
      let s2 := model.Update s pre.voltage pre.dt
      PopulateLoop model startTimes startTime rest now s2 t2
        (tmp ++ [(startTime + t2, model.GetVelocity s2)]) pts
        ⟨acc.simSquaredErrorSum + (now.velocity - model.GetVelocity s2) ^ 2,
         acc.squaredVariationSum + now.velocity ^ 2,
         acc.timeSeriesPoints + 1⟩

/-- PopulateTimeDomainSim (AnalyzerPlot.cpp lines 37-78).  The `step`
    parameter is accepted and, exactly as in the source, never used: the
    walk increments by one.  The C++ reads data[0] unconditionally, which is
    undefined for an empty vector; the empty case returns no sequences and
    is not relied on by any claim. -/
def PopulateTimeDomainSim (data : List PreparedData) (startTimes : List ℚ)
    (step : ℕ) (model : MechanismModel σ) (acc : SimAccum) :
    List (List (ℚ × ℚ)) × SimAccum :=
  match data with
  | [] => ([], acc)
  | d0 :: rest =>
    PopulateLoop model startTimes d0.timestamp rest d0
      (model.Reset d0.position d0.velocity) 0 [(d0.timestamp, d0.velocity)] [] acc

/-- Spec-side description of the simulated points (spec section 4.2): walk
    the samples after the first with the previous sample in hand; a sample
    at a start-boundary timestamp resets the model from its measured state
    and emits nothing; any other sample advances the model one step with the
    PREVIOUS sample's voltage and dt (zero-order hold, one-step lag) and
    records the predicted velocity at that sample's time. -/
def SpecWalk (model : MechanismModel σ) (startTimes : List ℚ) :
    List PreparedData → PreparedData → σ → List (ℚ × ℚ)
  | [], _, _ => []
  | now :: rest, pre, s =>
    if now.timestamp ∈ startTimes then
      SpecWalk model startTimes rest now (model.Reset now.position now.velocity)
    else
      let s2 := model.Update s pre.voltage pre.dt
      (now.timestamp, model.GetVelocity s2) :: SpecWalk model startTimes rest now s2

/-- The (predicted velocity, measured velocity) pairs of the contributing
    samples of one run, in the order the simulator visits them. -/
def PredPairs (model : MechanismModel σ) (startTimes : List ℚ) :
    List PreparedData → PreparedData → σ → List (ℚ × ℚ)
  | [], _, _ => []
  | now :: rest, pre, s =>
    if now.timestamp ∈ startTimes then
      PredPairs model startTimes rest now (model.Reset now.position now.velocity)
    else
      let s2 := model.Update s pre.voltage pre.dt
      (model.GetVelocity s2, now.velocity) :: PredPairs model startTimes rest now s2

/-- The contributing (predicted, measured) pairs of a whole run. -/
def PredPairsOf (model : MechanismModel σ) (startTimes : List ℚ)
    (data : List PreparedData) : List (ℚ × ℚ) :=
  match data with
  | [] => []
  | d0 :: rest => PredPairs model startTimes rest d0 (model.Reset d0.position d0.velocity)

lemma populateLoop_join (model : MechanismModel σ) (startTimes : List ℚ)
    (startTime : ℚ) (rest : List PreparedData) :
    ∀ (pre : PreparedData) (s : σ) (tmp : List (ℚ × ℚ))
      (pts : List (List (ℚ × ℚ))) (acc : SimAccum),
      ((PopulateLoop model startTimes startTime rest pre s
          (pre.timestamp - startTime) tmp pts acc).1).flatten
        = pts.flatten ++ tmp ++ SpecWalk model startTimes rest pre s := by
  induction rest with
  | nil =>
    intro pre s tmp pts acc
    simp [PopulateLoop, SpecWalk, List.flatten_append]
  | cons now rest ih =>
    intro pre s tmp pts acc
    have ht : pre.timestamp - startTime + (now.timestamp - pre.timestamp)
        = now.timestamp - startTime := by ring
    have hemit : startTime + (now.timestamp - startTime) = now.timestamp := by ring
    by_cases h : now.timestamp ∈ startTimes
    · simp only [PopulateLoop, SpecWalk, h, if_true, ht]
      rw [ih]
      simp [List.flatten_append, List.append_assoc]
    · simp only [PopulateLoop, SpecWalk, h, if_false, ht, hemit]
      rw [ih]
      simp [List.append_assoc]

lemma populateLoop_count (model : MechanismModel σ) (startTimes : List ℚ)
    (startTime : ℚ) (rest : List PreparedData) :
    ∀ (pre : PreparedData) (s : σ) (t : ℚ) (tmp : List (ℚ × ℚ))
      (pts : List (List (ℚ × ℚ))) (acc : SimAccum),
      ((PopulateLoop model startTimes startTime rest pre s t tmp pts acc).1).length
        = pts.length + 1
          + (rest.filter (fun d => d.timestamp ∈ startTimes)).length := by
  induction rest with
  | nil =>
    intro pre s t tmp pts acc
    simp [PopulateLoop]
  | cons now rest ih =>
    intro pre s t tmp pts acc
    by_cases h : now.timestamp ∈ startTimes
    · simp only [PopulateLoop, h, if_true]
      rw [ih]
      simp [h]
      try omega
    · simp only [PopulateLoop, h, if_false]
      rw [ih]
      simp [h]
      try omega

lemma populateLoop_getLast (model : MechanismModel σ) (startTimes : List ℚ)
    (startTime : ℚ) (rest : List PreparedData) :
    ∀ (pre : PreparedData) (s : σ) (t : ℚ) (tmp : List (ℚ × ℚ))
      (pts : List (List (ℚ × ℚ))) (acc : SimAccum) (dl : PreparedData),
      rest.getLast? = some dl → dl.timestamp ∈ startTimes →
      ((PopulateLoop model startTimes startTime rest pre s t tmp pts acc).1).getLast?
        = some [] := by
  induction rest with
  | nil =>
    intro pre s t tmp pts acc dl hlast
    simp at hlast
  | cons now rest ih =>
    intro pre s t tmp pts acc dl hlast hmem
    cases rest with
    | nil =>
      simp at hlast
      subst hlast
      simp only [PopulateLoop, hmem, if_true]
      simp [PopulateLoop, List.getLast?_concat]
    | cons b l =>
      have hlast2 : (b :: l).getLast? = some dl := by
        rw [List.getLast?_cons_cons] at hlast
        exact hlast
      by_cases h : now.timestamp ∈ startTimes
      · simp only [PopulateLoop, h, if_true]
        exact ih now _ _ _ _ _ dl hlast2 hmem
      · simp only [PopulateLoop, h, if_false]
        exact ih now _ _ _ _ _ dl hlast2 hmem

lemma specWalk_length (model : MechanismModel σ) (startTimes : List ℚ)
    (rest : List PreparedData) :
    ∀ (pre : PreparedData) (s : σ),
      (SpecWalk model startTimes rest pre s).length
        = (rest.filter (fun d => d.timestamp ∉ startTimes)).length := by
  induction rest with
  | nil => intro pre s; simp [SpecWalk]
  | cons now rest ih =>
    intro pre s
    by_cases h : now.timestamp ∈ startTimes
    · simp only [SpecWalk, h, if_true]
      rw [ih]
      simp [h]
      try omega
    · simp only [SpecWalk, h, if_false]
      simp [ih, h]
      try omega

lemma populate_join_eq (model : MechanismModel σ) (startTimes : List ℚ)
    (step : ℕ) (acc : SimAccum) (d0 : PreparedData) (rest : List PreparedData) :
    ((PopulateTimeDomainSim (d0 :: rest) startTimes step model acc).1).flatten
      = (d0.timestamp, d0.velocity)
        :: SpecWalk model startTimes rest d0 (model.Reset d0.position d0.velocity) := by
  have h := populateLoop_join model startTimes d0.timestamp rest d0
    (model.Reset d0.position d0.velocity) [(d0.timestamp, d0.velocity)] [] acc
  rw [sub_self] at h
  simpa [PopulateTimeDomainSim] using h

/-- C4: in the segmented simulator, every non-boundary sample after the
    first advances the model using the PREVIOUS sample's voltage and the
    previous sample's dt, never the current sample's: the flattened output
    of PopulateTimeDomainSim is the seed point followed by the points of
    SpecWalk, whose defining step for a non-boundary sample `now` with
    predecessor `pre` is Update s pre.voltage pre.dt. -/
theorem claim_C4 (σ : Type) (model : MechanismModel σ) (startTimes : List ℚ)
    (step : ℕ) (acc : SimAccum) (d0 : PreparedData) (rest : List PreparedData) :
    ((PopulateTimeDomainSim (d0 :: rest) startTimes step model acc).1).flatten
      = (d0.timestamp, d0.velocity)
        :: SpecWalk model startTimes rest d0 (model.Reset d0.position d0.velocity) :=
  populate_join_eq model startTimes step acc d0 rest

/-- C5: for every non-empty run and every boundary-timestamp set, the
    simulator emits exactly (number of samples after the first whose
    timestamp matches a boundary timestamp) + 1 point sequences; and when
    the last sample's timestamp is a boundary timestamp the final emitted
    sequence is the empty trailing sequence. -/
theorem claim_C5 (σ : Type) (model : MechanismModel σ) (startTimes : List ℚ)
    (step : ℕ) (acc : SimAccum) (d0 : PreparedData) (rest : List PreparedData) :
    ((PopulateTimeDomainSim (d0 :: rest) startTimes step model acc).1).length
      = 1 + (rest.filter (fun d => d.timestamp ∈ startTimes)).length
    ∧ ∀ dl : PreparedData, rest.getLast? = some dl → dl.timestamp ∈ startTimes →
        ((PopulateTimeDomainSim (d0 :: rest) startTimes step model acc).1).getLast?
          = some [] := by
  constructor
  · rw [show (PopulateTimeDomainSim (d0 :: rest) startTimes step model acc)
        = PopulateLoop model startTimes d0.timestamp rest d0
            (model.Reset d0.position d0.velocity) 0
            [(d0.timestamp, d0.velocity)] [] acc from rfl]
    rw [populateLoop_count]
    simp
    try omega
  · intro dl hlast hmem
    rw [show (PopulateTimeDomainSim (d0 :: rest) startTimes step model acc)
        = PopulateLoop model startTimes d0.timestamp rest d0
            (model.Reset d0.position d0.velocity) 0
            [(d0.timestamp, d0.velocity)] [] acc from rfl]
    exact populateLoop_getLast model startTimes d0.timestamp rest d0 _ _ _ _ _ dl hlast hmem

/-- Witness for C5 at a concrete input: a two-sample run whose second
    sample's timestamp is a boundary timestamp yields two sequences, the
    trailing one empty. -/
theorem claim_C5_witness :
    ((PopulateTimeDomainSim
        [⟨0, 1, 0, 0, 0, 1, 0, 0⟩, ⟨1, 1, 0, 1, 0, 0, 0, 0⟩]
        [(1 : ℚ)] 0
        (MechanismModel.mk (fun p v => (p, v)) (fun s _ _ => s) Prod.snd)
        ⟨0, 0, 0⟩).1).length = 1 + 1
    ∧ ((PopulateTimeDomainSim
        [⟨0, 1, 0, 0, 0, 1, 0, 0⟩, ⟨1, 1, 0, 1, 0, 0, 0, 0⟩]
        [(1 : ℚ)] 0
        (MechanismModel.mk (fun p v => (p, v)) (fun s _ _ => s) Prod.snd)
        ⟨0, 0, 0⟩).1).getLast? = some [] := by
  refine ⟨?_, ?_⟩
  · exact (claim_C5 (ℚ × ℚ)
      (MechanismModel.mk (fun p v => (p, v)) (fun s _ _ => s) Prod.snd)
      [(1 : ℚ)] 0 ⟨0, 0, 0⟩ ⟨0, 1, 0, 0, 0, 1, 0, 0⟩
      [⟨1, 1, 0, 1, 0, 0, 0, 0⟩]).1.trans (by simp)
  · exact (claim_C5 (ℚ × ℚ)
      (MechanismModel.mk (fun p v => (p, v)) (fun s _ _ => s) Prod.snd)
      [(1 : ℚ)] 0 ⟨0, 0, 0⟩ ⟨0, 1, 0, 0, 0, 1, 0, 0⟩
      [⟨1, 1, 0, 1, 0, 0, 0, 0⟩]).2
      ⟨1, 1, 0, 1, 0, 0, 0, 0⟩ rfl (by simp)

/-- C10: the segmented simulator's output does not depend on the stride
    argument at all (the parameter is dead in the source: the loop advances
    by one), and the simulated trajectory holds the seed point plus exactly
    one point for every subsequent non-boundary sample: it is never
    subsampled. -/
theorem claim_C10 (σ : Type) (model : MechanismModel σ) (startTimes : List ℚ)
    (s1 s2 : ℕ) (acc : SimAccum) (d0 : PreparedData) (rest : List PreparedData) :
    PopulateTimeDomainSim (d0 :: rest) startTimes s1 model acc
      = PopulateTimeDomainSim (d0 :: rest) startTimes s2 model acc
    ∧ ((PopulateTimeDomainSim (d0 :: rest) startTimes s1 model acc).1).flatten.length
      = 1 + (rest.filter (fun d => d.timestamp ∉ startTimes)).length := by
  constructor
  · rfl
  · rw [populate_join_eq]
    simp [specWalk_length]
    try omega

/-- C++ std::copysign on our rational doubles: the magnitude of the first
    argument carrying the sign of the second.  A C++ double velocity of +0.0
    has a positive sign bit, so copysign (Ks, 0) is +Ks; rationals have no
    negative zero, matching the +0.0 case. -/
def copysign (mag x : ℚ) : ℚ :=
  if x < 0 then -|mag| else |mag|

/-- The velocity-portion voltage of a slow-run sample (SetData lines
    213-222): voltage - copysign(Ks, velocity) - Ka * acceleration, minus Kg
    for an elevator or Kcos * cos for an arm.  ffGains is indexed as in the
    source (Ks, Kv, Ka, then Kg or Kcos); out-of-range access, undefined in
    C++, is given the junk value 0. -/
def VportionSlow (ffGains : List ℚ) (type : AnalysisType) (d : PreparedData) : ℚ :=
  let base := d.voltage - copysign (ffGains.getD 0 0) d.velocity
      - ffGains.getD 2 0 * d.acceleration
  match type with
  | .kElevator => base - ffGains.getD 3 0
  | .kArm => base - ffGains.getD 3 0 * d.cos
  | .kSimple => base

/-- The acceleration-portion voltage of a fast-run sample (SetData lines
    257-266). -/
def VportionFast (ffGains : List ℚ) (type : AnalysisType) (d : PreparedData) : ℚ :=
  let base := d.voltage - copysign (ffGains.getD 0 0) d.velocity
      - ffGains.getD 1 0 * d.velocity
  match type with
  | .kElevator => base - ffGains.getD 3 0
  | .kArm => base - ffGains.getD 3 0 * d.cos
  | .kSimple => base

/-- The per-run stride (SetData lines 178-179, SetRawTimeData lines
    117-118): ceil(size / kMaxSize * 4).  The kMaxSize constant is declared
    in AnalyzerPlot.h, which is not under src/, so the budget is an explicit
    parameter M throughout. -/
def stepOf (n M : ℕ) : ℕ :=
  Nat.ceil ((n : ℚ) / (M : ℚ) * 4)

/-- The velocity of the min_element by velocity (SetData lines 183-186);
    the C++ dereferences the iterator, undefined on an empty run. -/
def minVelocity : List PreparedData → ℚ
  | [] => 0
  | d :: rest => rest.foldl (fun m x => min m x.velocity) d.velocity

/-- The velocity of the max_element by velocity (SetData lines 188-191). -/
def maxVelocity : List PreparedData → ℚ
  | [] => 0
  | d :: rest => rest.foldl (fun m x => max m x.velocity) d.velocity

/-- The acceleration of the min_element by acceleration (lines 193-196). -/
def minAcceleration : List PreparedData → ℚ
  | [] => 0
  | d :: rest => rest.foldl (fun m x => min m x.acceleration) d.acceleration

/-- The acceleration of the max_element by acceleration (lines 198-201). -/
def maxAcceleration : List PreparedData → ℚ
  | [] => 0
  | d :: rest => rest.foldl (fun m x => max m x.acceleration) d.acceleration

/-- Modelled from the spec: GetMeanTimeDelta (sysid/analysis/FilteringUtils,
    not under src/) - "The mean dt across the whole combined run is computed
    once and rendered as a constant reference line".  The mean of the
    positive time deltas of the combined slow and fast datasets; no claim
    depends on the exact value, only on where the line is written. -/
def GetMeanTimeDelta (data : Storage) : ℚ :=
  let dts := ((data.slow ++ data.fast).map (fun d => d.dt)).filter (fun q => 0 < q)
  dts.sum / (dts.length : ℚ)

/-- The observable output state of AnalyzerPlot named by the claims: the
    seven filtered and seven raw per-chart point vectors (indexed as
    kChartTitles), the dt mean line, the two simulated trajectory
    collections, the two fit lines, the two metrics, and the three
    file-scope accumulators of lines 33-35. -/
structure PlotState where
  filteredData : Fin 7 → List (ℚ × ℚ)
  rawData : Fin 7 → List (ℚ × ℚ)
  dtMeanLine : List (ℚ × ℚ)
  quasistaticSim : List (List (ℚ × ℚ))
  dynamicSim : List (List (ℚ × ℚ))
  KvFit : (ℚ × ℚ) × (ℚ × ℚ)
  KaFit : (ℚ × ℚ) × (ℚ × ℚ)
  RMSE : ℝ
  RSquared : ℝ
  simSquaredErrorSum : ℚ
  squaredVariationSum : ℚ
  timeSeriesPoints : ℕ

/-- Append one point to filtered chart j (m_filteredData[kChartTitles[j]]). -/
def appendFiltered (st : PlotState) (j : Fin 7) (p : ℚ × ℚ) : PlotState :=
  { st with filteredData :=
      Function.update st.filteredData j (st.filteredData j ++ [p]) }

/-- Append one point to raw chart j (m_rawData[kChartTitles[j]]). -/
def appendRaw (st : PlotState) (j : Fin 7) (p : ℚ × ℚ) : PlotState :=
  { st with rawData :=
      Function.update st.rawData j (st.rawData j ++ [p]) }

/-- ResetData (AnalyzerPlot.cpp lines 87-112): clear every data vector, the
    mean line, both simulated collections and the three accumulators, and
    zero both fit lines.  m_RMSE and m_RSquared are not touched. -/
def ResetData (st : PlotState) : PlotState :=
  { st with
    filteredData := fun _ => []
    rawData := fun _ => []
    dtMeanLine := []
    quasistaticSim := []
    dynamicSim := []
    simSquaredErrorSum := 0
    squaredVariationSum := 0
    timeSeriesPoints := 0
    KvFit := ((0, 0), (0, 0))
    KaFit := ((0, 0), (0, 0)) }

/-- One strided abort-checking loop, the shape shared by the four population
    loops of SetData and SetRawTimeData: for (i = 0; i < size; i += step)
    with an abort check at the top of each iteration.  The cooperative
    cancellation flag is modelled as the sequence of values its successive
    atomic reads return: the counter c numbers the reads.  The result keeps
    the state, the next read number, and whether the pass was aborted.  The
    fuel argument (instantiated with size) only bounds the recursion; with
    step >= 1 it never runs out, and step = 0 cannot occur for a non-empty
    run because stepOf returns at least 1 whenever n >= 1 and M >= 1. -/
def strideLoop (body : ℕ → PlotState → PlotState) (abort : ℕ → Bool)
    (size step : ℕ) : ℕ → ℕ → ℕ → PlotState → PlotState × ℕ × Bool
  | 0, _, c, st => (st, c, false)
  | fuel + 1, i, c, st =>
    if i < size then
      if abort c then (st, c + 1, true)
      else strideLoop body abort size step fuel (i + step) (c + 1) (body i st)
    else (st, c, false)

/-- The slow quasistatic loop body (SetData lines 208-248): the voltage
    decomposition scatter point, the Kv fit line, the two time-domain
    points, and, for a non-first sample with positive dt whose timestamp is
    not a start time, the timestep-delta point in milliseconds. -/
def SlowBody (slow : List PreparedData) (ffGains : List ℚ) (type : AnalysisType)
    (startTimes : List ℚ) (Kv slowMin slowMax : ℚ) (i : ℕ) (st : PlotState) :
    PlotState :=
  let d := slow.getD i default
  let st := { st with KvFit := ((Kv * slowMin, slowMin), (Kv * slowMax, slowMax)) }
  let st := appendFiltered st 0 (VportionSlow ffGains type d, d.velocity)
  let st := appendFiltered st 2 (d.timestamp, d.velocity)
  let st := appendFiltered st 3 (d.timestamp, d.acceleration)
  if 0 < i ∧ 0 < d.dt ∧ d.timestamp ∉ startTimes then
    appendFiltered st 6 (d.timestamp, 1000 * d.dt)
  else st

/-- The fast dynamic loop body (SetData lines 252-292). -/
def FastBody (fast : List PreparedData) (ffGains : List ℚ) (type : AnalysisType)
    (startTimes : List ℚ) (Ka fastMin fastMax : ℚ) (i : ℕ) (st : PlotState) :
    PlotState :=
  let d := fast.getD i default
  let st := { st with KaFit := ((Ka * fastMin, fastMin), (Ka * fastMax, fastMax)) }
  let st := appendFiltered st 1 (VportionFast ffGains type d, d.acceleration)
  let st := appendFiltered st 4 (d.timestamp, d.velocity)
  let st := appendFiltered st 5 (d.timestamp, d.acceleration)
  if 0 < i ∧ 0 < d.dt ∧ d.timestamp ∉ startTimes then
    appendFiltered st 6 (d.timestamp, 1000 * d.dt)
  else st

/-- The raw slow loop body (SetRawTimeData lines 120-128). -/
def RawSlowBody (rawSlow : List PreparedData) (i : ℕ) (st : PlotState) : PlotState :=
  let d := rawSlow.getD i default
  let st := appendRaw st 2 (d.timestamp, d.velocity)
  appendRaw st 3 (d.timestamp, d.acceleration)

/-- The raw fast loop body (SetRawTimeData lines 130-139). -/
def RawFastBody (rawFast : List PreparedData) (i : ℕ) (st : PlotState) : PlotState :=
  let d := rawFast.getD i default
  let st := appendRaw st 4 (d.timestamp, d.velocity)
  appendRaw st 5 (d.timestamp, d.acceleration)

/-- SetRawTimeData (AnalyzerPlot.cpp lines 114-140): the two raw population
    loops with their own strides; an abort ends the call early. -/
def SetRawTimeData (M : ℕ) (rawSlow rawFast : List PreparedData)
    (abort : ℕ → Bool) (st : PlotState) (c : ℕ) : PlotState × ℕ × Bool :=
  let rawSlowStep := stepOf rawSlow.length M
  let rawFastStep := stepOf rawFast.length M
  match strideLoop (RawSlowBody rawSlow) abort rawSlow.length rawSlowStep
      rawSlow.length 0 c st with
  | (st, c, true) => (st, c, true)
  | (st, c, false) =>
    strideLoop (RawFastBody rawFast) abort rawFast.length rawFastStep
      rawFast.length 0 c st

/-- The mechanism model the SetData branch on AnalysisType constructs
    (lines 309-326): ElevatorSim{Ks,Kv,Ka,Kg}, ArmSim{Ks,Kv,Ka,Kcos} or
    SimpleMotorSim{Ks,Kv,Ka}; the C++ builds the same model expression in
    each of its two PopulateTimeDomainSim calls. -/
def ModelOf (mkSimple : ℚ → ℚ → ℚ → MechanismModel σ)
    (mkElevator mkArm : ℚ → ℚ → ℚ → ℚ → MechanismModel σ)
    (ffGains : List ℚ) (type : AnalysisType) : MechanismModel σ :=
  match type with
  | .kElevator => mkElevator (ffGains.getD 0 0) (ffGains.getD 1 0)
      (ffGains.getD 2 0) (ffGains.getD 3 0)
  | .kArm => mkArm (ffGains.getD 0 0) (ffGains.getD 1 0)
      (ffGains.getD 2 0) (ffGains.getD 3 0)
  | .kSimple => mkSimple (ffGains.getD 0 0) (ffGains.getD 1 0) (ffGains.getD 2 0)

/-- The tail of SetData after both filtered population loops (AnalyzerPlot
    lines 294-334): write the mean-dt reference line, run SetRawTimeData
    (returning early on abort), then compute both simulated trajectory
    collections and reduce the accumulators to RMSE and R squared.  The
    time extremes and mean dt are pure values computed by SetData and
    passed in. -/
noncomputable def SetDataTail (M : ℕ) (model : MechanismModel σ) (rawData : Storage)
    (startTimes : List ℚ) (fastStep : ℕ) (minTime maxTime dtMean : ℚ)
    (abort : ℕ → Bool) (st : PlotState) (c : ℕ) : PlotState :=
  let st := { st with dtMeanLine :=
      [(minTime, 1000 * dtMean), (maxTime, 1000 * dtMean)] }
  match SetRawTimeData M rawData.slow rawData.fast abort st c with
  | (st, _, true) => st
  | (st, _, false) =>
    let qs := PopulateTimeDomainSim rawData.slow startTimes fastStep model
      ⟨st.simSquaredErrorSum, st.squaredVariationSum, st.timeSeriesPoints⟩
    let dyn := PopulateTimeDomainSim rawData.fast startTimes fastStep model qs.2
    { st with
      quasistaticSim := qs.1
      dynamicSim := dyn.1
      simSquaredErrorSum := dyn.2.simSquaredErrorSum
      squaredVariationSum := dyn.2.squaredVariationSum
      timeSeriesPoints := dyn.2.timeSeriesPoints
      RMSE := Real.sqrt ((dyn.2.simSquaredErrorSum : ℝ)
        / (dyn.2.timeSeriesPoints : ℝ))
      RSquared := 1 - Real.sqrt ((dyn.2.simSquaredErrorSum : ℝ)
          / (dyn.2.timeSeriesPoints : ℝ))
        / Real.sqrt ((dyn.2.squaredVariationSum : ℝ)
          / (dyn.2.timeSeriesPoints : ℝ)) }

/-- SetData (AnalyzerPlot.cpp lines 159-335), the full recomputation pass
    under the lock: ResetData, the strides, the extreme elements, the mean
    dt, the slow and fast population loops (each returning early when the
    abort flag reads true), the mean-dt line, SetRawTimeData, the two
    simulated trajectory computations, and the RMSE and R-squared
    reductions.  The model constructors stand for the three sim classes,
    which are outside src/; M stands for kMaxSize. -/
noncomputable def SetData (M : ℕ) (mkSimple : ℚ → ℚ → ℚ → MechanismModel σ)
    (mkElevator mkArm : ℚ → ℚ → ℚ → ℚ → MechanismModel σ)
    (st : PlotState) (rawData filteredData : Storage) (ffGains : List ℚ)
    (startTimes : List ℚ) (type : AnalysisType) (abort : ℕ → Bool) : PlotState :=
  let slow := filteredData.slow
  let fast := filteredData.fast
  let st := ResetData st
  let slowStep := stepOf slow.length M
  let fastStep := stepOf fast.length M
  let dtMean := GetMeanTimeDelta filteredData
  match strideLoop
      (SlowBody slow ffGains type startTimes (ffGains.getD 1 0)
        (minVelocity slow) (maxVelocity slow))
      abort slow.length slowStep slow.length 0 0 st with
  | (st, _, true) => st
  | (st, c, false) =>
    match strideLoop
        (FastBody fast ffGains type startTimes (ffGains.getD 2 0)
          (minAcceleration fast) (maxAcceleration fast))
        abort fast.length fastStep fast.length 0 c st with
    | (st, _, true) => st
    | (st, c, false) =>
      SetDataTail M (ModelOf mkSimple mkElevator mkArm ffGains type) rawData
        startTimes fastStep
        (min ((slow.headD default).timestamp) ((fast.headD default).timestamp))
        (max ((slow.getLastD default).timestamp) ((fast.getLastD default).timestamp))
        dtMean abort st c

/-- SetRawData (AnalyzerPlot.cpp lines 148-157): under the lock, ResetData
    then SetRawTimeData. -/
def SetRawData (M : ℕ) (st : PlotState) (rawData : Storage)
    (abort : ℕ → Bool) : PlotState :=
  (SetRawTimeData M rawData.slow rawData.fast abort (ResetData st) 0).1

lemma one_le_stepOf (n M : ℕ) (hn : 1 ≤ n) (hM : 1 ≤ M) : 1 ≤ stepOf n M := by
  have h0 : (0 : ℚ) < (n : ℚ) / (M : ℚ) * 4 := by
    have hn0 : (0 : ℚ) < (n : ℚ) := by exact_mod_cast hn
    have hM0 : (0 : ℚ) < (M : ℚ) := by exact_mod_cast hM
    positivity
  exact Nat.ceil_pos.mpr h0

lemma strideLoop_proj {α : Type} (f : PlotState → α)
    (body : ℕ → PlotState → PlotState) (abort : ℕ → Bool) (size step : ℕ)
    (hbody : ∀ i st, f (body i st) = f st) :
    ∀ (fuel i c : ℕ) (st : PlotState),
      f ((strideLoop body abort size step fuel i c st).1) = f st := by
  intro fuel
  induction fuel with
  | zero => intro i c st; simp [strideLoop]
  | succ fuel ih =>
    intro i c st
    by_cases h : i < size
    · by_cases ha : abort c
      · simp [strideLoop, h, ha]
      · simp only [strideLoop, if_pos h, ha, Bool.false_eq_true, if_false]
        rw [ih, hbody]
    · simp [strideLoop, h]

lemma strideLoop_false_flag (body : ℕ → PlotState → PlotState)
    (size step : ℕ) :
    ∀ (fuel i c : ℕ) (st : PlotState),
      (strideLoop body (fun _ => false) size step fuel i c st).2.2 = false := by
  intro fuel
  induction fuel with
  | zero => intro i c st; simp [strideLoop]
  | succ fuel ih =>
    intro i c st
    by_cases h : i < size
    · simp only [strideLoop, if_pos h, Bool.false_eq_true, if_false]
      exact ih _ _ _
    · simp [strideLoop, h]

lemma setData_abort_all (M : ℕ) (mkSimple : ℚ → ℚ → ℚ → MechanismModel σ)
    (mkElevator mkArm : ℚ → ℚ → ℚ → ℚ → MechanismModel σ)
    (st : PlotState) (rawData filteredData : Storage) (ffGains : List ℚ)
    (startTimes : List ℚ) (type : AnalysisType)
    (hslow : filteredData.slow ≠ []) :
    SetData M mkSimple mkElevator mkArm st rawData filteredData ffGains
      startTimes type (fun _ => true) = ResetData st := by
  obtain ⟨slowL, fastL⟩ := filteredData
  obtain ⟨d, rest, rfl⟩ := List.exists_cons_of_ne_nil hslow
  simp [SetData, strideLoop]

lemma setRawData_abort_all (M : ℕ) (st : PlotState) (rawData : Storage)
    (hraw : rawData.slow ≠ []) :
    SetRawData M st rawData (fun _ => true) = ResetData st := by
  obtain ⟨slowL, fastL⟩ := rawData
  obtain ⟨d, rest, rfl⟩ := List.exists_cons_of_ne_nil hraw
  simp [SetRawData, SetRawTimeData, strideLoop]

/-- A state with previously committed output, used to exhibit that an
    aborted pass does not preserve it. -/
def preState : PlotState :=
  { filteredData := fun _ => [(1, 1)]
    rawData := fun _ => [(1, 1)]
    dtMeanLine := [(1, 1)]
    quasistaticSim := [[(1, 1)]]
    dynamicSim := [[(1, 1)]]
    KvFit := ((1, 1), (1, 1))
    KaFit := ((1, 1), (1, 1))
    RMSE := 0
    RSquared := 0
    simSquaredErrorSum := 1
    squaredVariationSum := 1
    timeSeriesPoints := 1 }

/-- A stand-in constructor for SimpleMotorSim used at concrete inputs: the
    state is the seeded (position, velocity) pair, a step keeps it, the
    velocity query reads it. -/
def trivSim3 : ℚ → ℚ → ℚ → MechanismModel (ℚ × ℚ) :=
  fun _ _ _ => ⟨fun p v => (p, v), fun s _ _ => s, Prod.snd⟩

/-- A stand-in constructor for ElevatorSim and ArmSim at concrete inputs. -/
def trivSim4 : ℚ → ℚ → ℚ → ℚ → MechanismModel (ℚ × ℚ) :=
  fun _ _ _ _ => ⟨fun p v => (p, v), fun s _ _ => s, Prod.snd⟩

/-- A sample with unit voltage, velocity and dt at time zero. -/
def sampleA : PreparedData := ⟨0, 1, 0, 1, 0, 1, 0, 0⟩

/-- Counterexample to C1 as stated: with committed output in place and the
    cancellation flag already set, the aborted SetData call does not leave
    the observable state unchanged - ResetData has already cleared it. -/
theorem claim_C1_counterexample :
    SetData 8 trivSim3 trivSim4 trivSim4 preState ⟨[sampleA], [sampleA]⟩
      ⟨[sampleA], [sampleA]⟩ [] [] AnalysisType.kSimple (fun _ => true)
      ≠ preState := by
  rw [setData_abort_all 8 trivSim3 trivSim4 trivSim4 preState
    ⟨[sampleA], [sampleA]⟩ ⟨[sampleA], [sampleA]⟩ [] [] AnalysisType.kSimple
    (by simp)]
  intro h
  have h0 := congrArg (fun s => s.filteredData 0) h
  simp [ResetData, preState] at h0

/-- C1, corrected: when the cancellation flag is set, the recomputation pass
    (SetData or SetRawData) is abandoned at the next per-iteration check,
    but the previously committed output is NOT preserved: ResetData at the
    start of the pass has already cleared the point series, fit-line
    endpoints and accumulator sums (only m_RMSE and m_RSquared keep their
    old values), and points appended before the abort remain.  In
    particular, when the flag is already set at the first check, the state
    after the aborted call is exactly the cleared state ResetData st. -/
theorem claim_C1 (σ : Type) (M : ℕ) (mkSimple : ℚ → ℚ → ℚ → MechanismModel σ)
    (mkElevator mkArm : ℚ → ℚ → ℚ → ℚ → MechanismModel σ)
    (st : PlotState) (rawData filteredData : Storage) (ffGains : List ℚ)
    (startTimes : List ℚ) (type : AnalysisType)
    (hslow : filteredData.slow ≠ []) (hraw : rawData.slow ≠ []) :
    SetData M mkSimple mkElevator mkArm st rawData filteredData ffGains
      startTimes type (fun _ => true) = ResetData st
    ∧ SetRawData M st rawData (fun _ => true) = ResetData st :=
  ⟨setData_abort_all M mkSimple mkElevator mkArm st rawData filteredData
    ffGains startTimes type hslow,
   setRawData_abort_all M st rawData hraw⟩

/-- Witness for C1 at a concrete input. -/
theorem claim_C1_witness :
    (([sampleA] : List PreparedData) ≠ [] ∧ ([sampleA] : List PreparedData) ≠ [])
    ∧ (SetData 8 trivSim3 trivSim4 trivSim4 preState ⟨[sampleA], [sampleA]⟩
        ⟨[sampleA], [sampleA]⟩ [] [] AnalysisType.kSimple (fun _ => true)
        = ResetData preState
      ∧ SetRawData 8 preState ⟨[sampleA], [sampleA]⟩ (fun _ => true)
        = ResetData preState) :=
  ⟨⟨by simp, by simp⟩,
   claim_C1 (ℚ × ℚ) 8 trivSim3 trivSim4 trivSim4 preState
     ⟨[sampleA], [sampleA]⟩ ⟨[sampleA], [sampleA]⟩ [] [] AnalysisType.kSimple
     (by simp) (by simp)⟩

/-- Total squared prediction error of a list of (predicted, measured)
    pairs. -/
def errSum (l : List (ℚ × ℚ)) : ℚ :=
  (l.map (fun pm => (pm.2 - pm.1) ^ 2)).sum

/-- Total squared measured velocity of a list of (predicted, measured)
    pairs. -/
def varSum (l : List (ℚ × ℚ)) : ℚ :=
  (l.map (fun pm => pm.2 ^ 2)).sum

lemma populateLoop_acc (model : MechanismModel σ) (startTimes : List ℚ)
    (startTime : ℚ) (rest : List PreparedData) :
    ∀ (pre : PreparedData) (s : σ) (t : ℚ) (tmp : List (ℚ × ℚ))
      (pts : List (List (ℚ × ℚ))) (acc : SimAccum),
      (PopulateLoop model startTimes startTime rest pre s t tmp pts acc).2
        = ⟨acc.simSquaredErrorSum + errSum (PredPairs model startTimes rest pre s),
           acc.squaredVariationSum + varSum (PredPairs model startTimes rest pre s),
           acc.timeSeriesPoints + (PredPairs model startTimes rest pre s).length⟩ := by
  induction rest with
  | nil =>
    intro pre s t tmp pts acc
    simp [PopulateLoop, PredPairs, errSum, varSum]
  | cons now rest ih =>
    intro pre s t tmp pts acc
    by_cases h : now.timestamp ∈ startTimes
    · simp only [PopulateLoop, PredPairs, h, if_true]
      rw [ih]
    · simp only [PopulateLoop, PredPairs, h, if_false]
      rw [ih]
      simp only [SimAccum.mk.injEq, errSum, varSum, List.map_cons, List.sum_cons,
        List.length_cons]
      refine ⟨by ring, by ring, by omega⟩

lemma populate_acc (model : MechanismModel σ) (startTimes : List ℚ)
    (step : ℕ) (data : List PreparedData) (acc : SimAccum) :
    (PopulateTimeDomainSim data startTimes step model acc).2
      = ⟨acc.simSquaredErrorSum + errSum (PredPairsOf model startTimes data),
         acc.squaredVariationSum + varSum (PredPairsOf model startTimes data),
         acc.timeSeriesPoints + (PredPairsOf model startTimes data).length⟩ := by
  match data with
  | [] => simp [PopulateTimeDomainSim, PredPairsOf, errSum, varSum]
  | d0 :: rest =>
    rw [show (PopulateTimeDomainSim (d0 :: rest) startTimes step model acc)
        = PopulateLoop model startTimes d0.timestamp rest d0
            (model.Reset d0.position d0.velocity) 0
            [(d0.timestamp, d0.velocity)] [] acc from rfl]
    rw [populateLoop_acc]
    rfl

lemma slowBody_filtered_acc (slow : List PreparedData) (ffGains : List ℚ)
    (type : AnalysisType) (startTimes : List ℚ) (Kv mn mx : ℚ) (i : ℕ)
    (st : PlotState) :
    (SlowBody slow ffGains type startTimes Kv mn mx i st).simSquaredErrorSum
        = st.simSquaredErrorSum
    ∧ (SlowBody slow ffGains type startTimes Kv mn mx i st).squaredVariationSum
        = st.squaredVariationSum
    ∧ (SlowBody slow ffGains type startTimes Kv mn mx i st).timeSeriesPoints
        = st.timeSeriesPoints
    ∧ (SlowBody slow ffGains type startTimes Kv mn mx i st).rawData = st.rawData
    ∧ (SlowBody slow ffGains type startTimes Kv mn mx i st).RMSE = st.RMSE
    ∧ (SlowBody slow ffGains type startTimes Kv mn mx i st).RSquared = st.RSquared := by
  simp [SlowBody, appendFiltered, apply_ite
    (fun s : PlotState => s.simSquaredErrorSum),
    apply_ite (fun s : PlotState => s.squaredVariationSum),
    apply_ite (fun s : PlotState => s.timeSeriesPoints),
    apply_ite (fun s : PlotState => s.rawData),
    apply_ite (fun s : PlotState => s.RMSE),
    apply_ite (fun s : PlotState => s.RSquared)]

lemma fastBody_filtered_acc (fast : List PreparedData) (ffGains : List ℚ)
    (type : AnalysisType) (startTimes : List ℚ) (Ka mn mx : ℚ) (i : ℕ)
    (st : PlotState) :
    (FastBody fast ffGains type startTimes Ka mn mx i st).simSquaredErrorSum
        = st.simSquaredErrorSum
    ∧ (FastBody fast ffGains type startTimes Ka mn mx i st).squaredVariationSum
        = st.squaredVariationSum
    ∧ (FastBody fast ffGains type startTimes Ka mn mx i st).timeSeriesPoints
        = st.timeSeriesPoints
    ∧ (FastBody fast ffGains type startTimes Ka mn mx i st).rawData = st.rawData
    ∧ (FastBody fast ffGains type startTimes Ka mn mx i st).RMSE = st.RMSE
    ∧ (FastBody fast ffGains type startTimes Ka mn mx i st).RSquared = st.RSquared := by
  simp [FastBody, appendFiltered, apply_ite
    (fun s : PlotState => s.simSquaredErrorSum),
    apply_ite (fun s : PlotState => s.squaredVariationSum),
    apply_ite (fun s : PlotState => s.timeSeriesPoints),
    apply_ite (fun s : PlotState => s.rawData),
    apply_ite (fun s : PlotState => s.RMSE),
    apply_ite (fun s : PlotState => s.RSquared)]

lemma rawBody_acc (run : List PreparedData) (i : ℕ) (st : PlotState) :
    ((RawSlowBody run i st).simSquaredErrorSum = st.simSquaredErrorSum
      ∧ (RawSlowBody run i st).squaredVariationSum = st.squaredVariationSum
      ∧ (RawSlowBody run i st).timeSeriesPoints = st.timeSeriesPoints
      ∧ (RawSlowBody run i st).filteredData = st.filteredData)
    ∧ ((RawFastBody run i st).simSquaredErrorSum = st.simSquaredErrorSum
      ∧ (RawFastBody run i st).squaredVariationSum = st.squaredVariationSum
      ∧ (RawFastBody run i st).timeSeriesPoints = st.timeSeriesPoints
      ∧ (RawFastBody run i st).filteredData = st.filteredData) := by
  constructor <;> simp [RawSlowBody, RawFastBody, appendRaw]

lemma setRawTimeData_false (M : ℕ) (rawSlow rawFast : List PreparedData)
    (st : PlotState) (c : ℕ) :
    (SetRawTimeData M rawSlow rawFast (fun _ => false) st c).2.2 = false
    ∧ ((SetRawTimeData M rawSlow rawFast (fun _ => false) st c).1).simSquaredErrorSum
        = st.simSquaredErrorSum
    ∧ ((SetRawTimeData M rawSlow rawFast (fun _ => false) st c).1).squaredVariationSum
        = st.squaredVariationSum
    ∧ ((SetRawTimeData M rawSlow rawFast (fun _ => false) st c).1).timeSeriesPoints
        = st.timeSeriesPoints := by
  simp only [SetRawTimeData]
  rcases h1 : strideLoop (RawSlowBody rawSlow) (fun _ => false) rawSlow.length
      (stepOf rawSlow.length M) rawSlow.length 0 c st with ⟨st1, c1, b1⟩
  have hb1 : b1 = false := by
    have h := strideLoop_false_flag (RawSlowBody rawSlow) rawSlow.length
      (stepOf rawSlow.length M) rawSlow.length 0 c st
    rw [h1] at h
    exact h
  subst hb1
  have hst1e : st1.simSquaredErrorSum = st.simSquaredErrorSum := by
    have h := strideLoop_proj (fun s => s.simSquaredErrorSum) (RawSlowBody rawSlow)
      (fun _ => false) rawSlow.length (stepOf rawSlow.length M)
      (fun i s => ((rawBody_acc rawSlow i s).1).1) rawSlow.length 0 c st
    rw [h1] at h
    exact h
  have hst1v : st1.squaredVariationSum = st.squaredVariationSum := by
    have h := strideLoop_proj (fun s => s.squaredVariationSum) (RawSlowBody rawSlow)
      (fun _ => false) rawSlow.length (stepOf rawSlow.length M)
      (fun i s => ((rawBody_acc rawSlow i s).1).2.1) rawSlow.length 0 c st
    rw [h1] at h
    exact h
  have hst1n : st1.timeSeriesPoints = st.timeSeriesPoints := by
    have h := strideLoop_proj (fun s => s.timeSeriesPoints) (RawSlowBody rawSlow)
      (fun _ => false) rawSlow.length (stepOf rawSlow.length M)
      (fun i s => ((rawBody_acc rawSlow i s).1).2.2.1) rawSlow.length 0 c st
    rw [h1] at h
    exact h
  refine ⟨?_, ?_, ?_, ?_⟩
  · show (strideLoop (RawFastBody rawFast) (fun _ => false) rawFast.length
        (stepOf rawFast.length M) rawFast.length 0 c1 st1).2.2 = false
    exact strideLoop_false_flag _ _ _ _ _ _ _
  · show ((strideLoop (RawFastBody rawFast) (fun _ => false) rawFast.length
        (stepOf rawFast.length M) rawFast.length 0 c1 st1).1).simSquaredErrorSum
      = st.simSquaredErrorSum
    have h := strideLoop_proj (fun s => s.simSquaredErrorSum) (RawFastBody rawFast)
      (fun _ => false) rawFast.length (stepOf rawFast.length M)
      (fun i s => ((rawBody_acc rawFast i s).2).1) rawFast.length 0 c1 st1
    rw [h, hst1e]
  · show ((strideLoop (RawFastBody rawFast) (fun _ => false) rawFast.length
        (stepOf rawFast.length M) rawFast.length 0 c1 st1).1).squaredVariationSum
      = st.squaredVariationSum
    have h := strideLoop_proj (fun s => s.squaredVariationSum) (RawFastBody rawFast)
      (fun _ => false) rawFast.length (stepOf rawFast.length M)
      (fun i s => ((rawBody_acc rawFast i s).2).2.1) rawFast.length 0 c1 st1
    rw [h, hst1v]
  · show ((strideLoop (RawFastBody rawFast) (fun _ => false) rawFast.length
        (stepOf rawFast.length M) rawFast.length 0 c1 st1).1).timeSeriesPoints
      = st.timeSeriesPoints
    have h := strideLoop_proj (fun s => s.timeSeriesPoints) (RawFastBody rawFast)
      (fun _ => false) rawFast.length (stepOf rawFast.length M)
      (fun i s => ((rawBody_acc rawFast i s).2).2.2.1) rawFast.length 0 c1 st1
    rw [h, hst1n]

lemma setDataTail_false_acc (M : ℕ) (model : MechanismModel σ) (rawData : Storage)
    (startTimes : List ℚ) (fastStep : ℕ) (minTime maxTime dtMean : ℚ)
    (st : PlotState) (c : ℕ) :
    (SetDataTail M model rawData startTimes fastStep minTime maxTime dtMean
        (fun _ => false) st c).simSquaredErrorSum
      = st.simSquaredErrorSum
        + errSum (PredPairsOf model startTimes rawData.slow)
        + errSum (PredPairsOf model startTimes rawData.fast)
    ∧ (SetDataTail M model rawData startTimes fastStep minTime maxTime dtMean
        (fun _ => false) st c).squaredVariationSum
      = st.squaredVariationSum
        + varSum (PredPairsOf model startTimes rawData.slow)
        + varSum (PredPairsOf model startTimes rawData.fast)
    ∧ (SetDataTail M model rawData startTimes fastStep minTime maxTime dtMean
        (fun _ => false) st c).timeSeriesPoints
      = st.timeSeriesPoints
        + (PredPairsOf model startTimes rawData.slow).length
        + (PredPairsOf model startTimes rawData.fast).length
    ∧ (SetDataTail M model rawData startTimes fastStep minTime maxTime dtMean
        (fun _ => false) st c).RMSE
      = Real.sqrt (((st.simSquaredErrorSum
            + errSum (PredPairsOf model startTimes rawData.slow)
            + errSum (PredPairsOf model startTimes rawData.fast) : ℚ) : ℝ)
          / ((st.timeSeriesPoints
            + (PredPairsOf model startTimes rawData.slow).length
            + (PredPairsOf model startTimes rawData.fast).length : ℕ) : ℝ))
    ∧ (SetDataTail M model rawData startTimes fastStep minTime maxTime dtMean
        (fun _ => false) st c).RSquared
      = 1 - Real.sqrt (((st.simSquaredErrorSum
            + errSum (PredPairsOf model startTimes rawData.slow)
            + errSum (PredPairsOf model startTimes rawData.fast) : ℚ) : ℝ)
          / ((st.timeSeriesPoints
            + (PredPairsOf model startTimes rawData.slow).length
            + (PredPairsOf model startTimes rawData.fast).length : ℕ) : ℝ))
        / Real.sqrt (((st.squaredVariationSum
            + varSum (PredPairsOf model startTimes rawData.slow)
            + varSum (PredPairsOf model startTimes rawData.fast) : ℚ) : ℝ)
          / ((st.timeSeriesPoints
            + (PredPairsOf model startTimes rawData.slow).length
            + (PredPairsOf model startTimes rawData.fast).length : ℕ) : ℝ)) := by
  simp only [SetDataTail]
  rcases h3 : SetRawTimeData M rawData.slow rawData.fast (fun _ => false)
      { st with dtMeanLine := [(minTime, 1000 * dtMean), (maxTime, 1000 * dtMean)] } c
    with ⟨st4, c4, b4⟩
  have hraw := setRawTimeData_false M rawData.slow rawData.fast
    { st with dtMeanLine := [(minTime, 1000 * dtMean), (maxTime, 1000 * dtMean)] } c
  rw [h3] at hraw
  obtain ⟨hb4, h4e, h4v, h4n⟩ := hraw
  subst hb4
  simp only [Prod.fst] at h4e h4v h4n
  simp only [populate_acc]
  refine ⟨?_, ?_, ?_, ?_, ?_⟩ <;>
    simp [h4e, h4v, h4n]

lemma setData_false_pieces (M : ℕ) (mkSimple : ℚ → ℚ → ℚ → MechanismModel σ)
    (mkElevator mkArm : ℚ → ℚ → ℚ → ℚ → MechanismModel σ)
    (st : PlotState) (rawData filteredData : Storage) (ffGains : List ℚ)
    (startTimes : List ℚ) (type : AnalysisType) :
    (SetData M mkSimple mkElevator mkArm st rawData filteredData ffGains
        startTimes type (fun _ => false)).simSquaredErrorSum
      = errSum (PredPairsOf (ModelOf mkSimple mkElevator mkArm ffGains type)
            startTimes rawData.slow)
        + errSum (PredPairsOf (ModelOf mkSimple mkElevator mkArm ffGains type)
            startTimes rawData.fast)
    ∧ (SetData M mkSimple mkElevator mkArm st rawData filteredData ffGains
        startTimes type (fun _ => false)).squaredVariationSum
      = varSum (PredPairsOf (ModelOf mkSimple mkElevator mkArm ffGains type)
            startTimes rawData.slow)
        + varSum (PredPairsOf (ModelOf mkSimple mkElevator mkArm ffGains type)
            startTimes rawData.fast)
    ∧ (SetData M mkSimple mkElevator mkArm st rawData filteredData ffGains
        startTimes type (fun _ => false)).timeSeriesPoints
      = (PredPairsOf (ModelOf mkSimple mkElevator mkArm ffGains type)
            startTimes rawData.slow).length
        + (PredPairsOf (ModelOf mkSimple mkElevator mkArm ffGains type)
            startTimes rawData.fast).length
    ∧ (SetData M mkSimple mkElevator mkArm st rawData filteredData ffGains
        startTimes type (fun _ => false)).RMSE
      = Real.sqrt ((((SetData M mkSimple mkElevator mkArm st rawData filteredData
            ffGains startTimes type (fun _ => false)).simSquaredErrorSum : ℚ) : ℝ)
          / (((SetData M mkSimple mkElevator mkArm st rawData filteredData
            ffGains startTimes type (fun _ => false)).timeSeriesPoints : ℕ) : ℝ))
    ∧ (SetData M mkSimple mkElevator mkArm st rawData filteredData ffGains
        startTimes type (fun _ => false)).RSquared
      = 1 - (SetData M mkSimple mkElevator mkArm st rawData filteredData ffGains
            startTimes type (fun _ => false)).RMSE
        / Real.sqrt ((((SetData M mkSimple mkElevator mkArm st rawData filteredData
            ffGains startTimes type (fun _ => false)).squaredVariationSum : ℚ) : ℝ)
          / (((SetData M mkSimple mkElevator mkArm st rawData filteredData
            ffGains startTimes type (fun _ => false)).timeSeriesPoints : ℕ) : ℝ)) := by
  simp only [SetData]
  rcases h1 : strideLoop
      (SlowBody filteredData.slow ffGains type startTimes (ffGains.getD 1 0)
        (minVelocity filteredData.slow) (maxVelocity filteredData.slow))
      (fun _ => false) filteredData.slow.length
      (stepOf filteredData.slow.length M) filteredData.slow.length 0 0
      (ResetData st) with ⟨st1, c1, b1⟩
  have hb1 : b1 = false := by
    have h := strideLoop_false_flag
      (SlowBody filteredData.slow ffGains type startTimes (ffGains.getD 1 0)
        (minVelocity filteredData.slow) (maxVelocity filteredData.slow))
      filteredData.slow.length (stepOf filteredData.slow.length M)
      filteredData.slow.length 0 0 (ResetData st)
    rw [h1] at h
    exact h
  subst hb1
  dsimp only
  have h1e : st1.simSquaredErrorSum = 0 := by
    have h := strideLoop_proj (fun s => s.simSquaredErrorSum) _ (fun _ => false)
      filteredData.slow.length (stepOf filteredData.slow.length M)
      (fun i s => (slowBody_filtered_acc filteredData.slow ffGains type startTimes
        (ffGains.getD 1 0) (minVelocity filteredData.slow)
        (maxVelocity filteredData.slow) i s).1)
      filteredData.slow.length 0 0 (ResetData st)
    rw [h1] at h
    exact h
  have h1v : st1.squaredVariationSum = 0 := by
    have h := strideLoop_proj (fun s => s.squaredVariationSum) _ (fun _ => false)
      filteredData.slow.length (stepOf filteredData.slow.length M)
      (fun i s => (slowBody_filtered_acc filteredData.slow ffGains type startTimes
        (ffGains.getD 1 0) (minVelocity filteredData.slow)
        (maxVelocity filteredData.slow) i s).2.1)
      filteredData.slow.length 0 0 (ResetData st)
    rw [h1] at h
    exact h
  have h1n : st1.timeSeriesPoints = 0 := by
    have h := strideLoop_proj (fun s => s.timeSeriesPoints) _ (fun _ => false)
      filteredData.slow.length (stepOf filteredData.slow.length M)
      (fun i s => (slowBody_filtered_acc filteredData.slow ffGains type startTimes
        (ffGains.getD 1 0) (minVelocity filteredData.slow)
        (maxVelocity filteredData.slow) i s).2.2.1)
      filteredData.slow.length 0 0 (ResetData st)
    rw [h1] at h
    exact h
  rcases h2 : strideLoop
      (FastBody filteredData.fast ffGains type startTimes (ffGains.getD 2 0)
        (minAcceleration filteredData.fast) (maxAcceleration filteredData.fast))
      (fun _ => false) filteredData.fast.length
      (stepOf filteredData.fast.length M) filteredData.fast.length 0 c1 st1
    with ⟨st2, c2, b2⟩
  have hb2 : b2 = false := by
    have h := strideLoop_false_flag
      (FastBody filteredData.fast ffGains type startTimes (ffGains.getD 2 0)
        (minAcceleration filteredData.fast) (maxAcceleration filteredData.fast))
      filteredData.fast.length (stepOf filteredData.fast.length M)
      filteredData.fast.length 0 c1 st1
    rw [h2] at h
    exact h
  subst hb2
  dsimp only
  have h2e : st2.simSquaredErrorSum = 0 := by
    have h := strideLoop_proj (fun s => s.simSquaredErrorSum) _ (fun _ => false)
      filteredData.fast.length (stepOf filteredData.fast.length M)
      (fun i s => (fastBody_filtered_acc filteredData.fast ffGains type startTimes
        (ffGains.getD 2 0) (minAcceleration filteredData.fast)
        (maxAcceleration filteredData.fast) i s).1)
      filteredData.fast.length 0 c1 st1
    rw [h2] at h
    rw [h, h1e]
  have h2v : st2.squaredVariationSum = 0 := by
    have h := strideLoop_proj (fun s => s.squaredVariationSum) _ (fun _ => false)
      filteredData.fast.length (stepOf filteredData.fast.length M)
      (fun i s => (fastBody_filtered_acc filteredData.fast ffGains type startTimes
        (ffGains.getD 2 0) (minAcceleration filteredData.fast)
        (maxAcceleration filteredData.fast) i s).2.1)
      filteredData.fast.length 0 c1 st1
    rw [h2] at h
    rw [h, h1v]
  have h2n : st2.timeSeriesPoints = 0 := by
    have h := strideLoop_proj (fun s => s.timeSeriesPoints) _ (fun _ => false)
      filteredData.fast.length (stepOf filteredData.fast.length M)
      (fun i s => (fastBody_filtered_acc filteredData.fast ffGains type startTimes
        (ffGains.getD 2 0) (minAcceleration filteredData.fast)
        (maxAcceleration filteredData.fast) i s).2.2.1)
      filteredData.fast.length 0 c1 st1
    rw [h2] at h
    rw [h, h1n]
  have htail := setDataTail_false_acc M
    (ModelOf mkSimple mkElevator mkArm ffGains type) rawData startTimes
    (stepOf filteredData.fast.length M)
    (min ((filteredData.slow.headD default).timestamp)
      ((filteredData.fast.headD default).timestamp))
    (max ((filteredData.slow.getLastD default).timestamp)
      ((filteredData.fast.getLastD default).timestamp))
    (GetMeanTimeDelta filteredData) st2 c2
  rw [h2e, h2v, h2n] at htail
  obtain ⟨te, tv, tn, tr, ts2⟩ := htail
  simp only [zero_add] at te tv tn tr ts2
  refine ⟨te, tv, tn, ?_, ?_⟩
  · simp only [te, tn, tr]
  · simp only [ts2, tr, te, tv, tn]

lemma stepOf_two_eight : stepOf 2 8 = 1 := by
  unfold stepOf
  rw [show ((2 : ℕ) : ℚ) / ((8 : ℕ) : ℚ) * 4 = 1 by norm_num]
  exact Nat.ceil_one

/-- Sample 0 of the spec's slow-run example scenario:
    t = 0, V = 1, pos = 0, vel = 0, dt = 0.02. -/
def sampleSlow0 : PreparedData := ⟨0, 1, 0, 0, 0, 1/50, 0, 0⟩

/-- Sample 1 of the spec's slow-run example scenario:
    t = 0.02, V = 1, pos = 0.001, vel = 0.05, dt = 0.02. -/
def sampleSlow1 : PreparedData := ⟨1/50, 1, 1/1000, 1/20, 0, 1/50, 0, 0⟩

/-- Counterexample to C2 as stated: for the spec's example scenario with
    Ks = 0.5, Kv = 0.5, Ka = 0 and the generic mechanism, the
    velocity-portion voltage of sample 0 is not 1.0 and the emitted scatter
    point is not (1.0, 0): std::copysign(0.5, +0.0) is +0.5, not 0. -/
theorem claim_C2_counterexample :
    VportionSlow [1/2, 1/2, 0] AnalysisType.kSimple sampleSlow0 ≠ 1
    ∧ ((SetData 8 trivSim3 trivSim4 trivSim4 preState
        ⟨[sampleSlow0, sampleSlow1], [sampleSlow0, sampleSlow1]⟩
        ⟨[sampleSlow0, sampleSlow1], [sampleSlow0, sampleSlow1]⟩
        [1/2, 1/2, 0] [] AnalysisType.kSimple (fun _ => false)).filteredData
          0).head?
      ≠ some (1, 0) := by
  have habs : |(1 : ℚ)/2| = 1/2 := abs_of_pos (by norm_num)
  constructor
  · norm_num [VportionSlow, copysign, sampleSlow0, habs]
  · simp +decide [SetData, SetDataTail, strideLoop, stepOf_two_eight, SlowBody,
      FastBody, RawSlowBody, RawFastBody, SetRawTimeData, appendFiltered,
      appendRaw, ResetData, VportionSlow, VportionFast, copysign, ModelOf,
      PopulateTimeDomainSim, PopulateLoop, GetMeanTimeDelta, minVelocity,
      maxVelocity, minAcceleration, maxAcceleration, sampleSlow0, sampleSlow1,
      trivSim3, trivSim4, Function.update, abs]

/-- C2, corrected: in the spec's example scenario the velocity-portion
    voltage of sample 0 is 0.5, because the static-friction term uses
    std::copysign(Ks, velocity) and copysign of a (positive) zero velocity
    returns +Ks = +0.5, not 0; the emitted scatter point is (0.5, 0). -/
theorem claim_C2 :
    VportionSlow [1/2, 1/2, 0] AnalysisType.kSimple sampleSlow0 = 1/2
    ∧ ((SetData 8 trivSim3 trivSim4 trivSim4 preState
        ⟨[sampleSlow0, sampleSlow1], [sampleSlow0, sampleSlow1]⟩
        ⟨[sampleSlow0, sampleSlow1], [sampleSlow0, sampleSlow1]⟩
        [1/2, 1/2, 0] [] AnalysisType.kSimple (fun _ => false)).filteredData
          0).head?
      = some (1/2, 0) := by
  have habs : |(1 : ℚ)/2| = 1/2 := abs_of_pos (by norm_num)
  constructor
  · norm_num [VportionSlow, copysign, sampleSlow0, habs]
  · simp +decide [SetData, SetDataTail, strideLoop, stepOf_two_eight, SlowBody,
      FastBody, RawSlowBody, RawFastBody, SetRawTimeData, appendFiltered,
      appendRaw, ResetData, VportionSlow, VportionFast, copysign, ModelOf,
      PopulateTimeDomainSim, PopulateLoop, GetMeanTimeDelta, minVelocity,
      maxVelocity, minAcceleration, maxAcceleration, sampleSlow0, sampleSlow1,
      trivSim3, trivSim4, Function.update, abs]
    norm_num

lemma errSum_zero (l : List (ℚ × ℚ)) (h : ∀ pm ∈ l, pm.1 = pm.2) :
    errSum l = 0 := by
  unfold errSum
  apply List.sum_eq_zero
  intro x hx
  obtain ⟨pm, hpm, rfl⟩ := List.mem_map.mp hx
  rw [h pm hpm]
  ring

/-- C6: RMSE is computed as sqrt(total squared prediction error / count of
    contributing samples); for every input with at least one contributing
    sample it is non-negative, and it is exactly 0 when the predicted
    velocity equals the measured velocity at every contributing sample. -/
theorem claim_C6 (σ : Type) (M : ℕ) (mkSimple : ℚ → ℚ → ℚ → MechanismModel σ)
    (mkElevator mkArm : ℚ → ℚ → ℚ → ℚ → MechanismModel σ)
    (st : PlotState) (rawData filteredData : Storage) (ffGains : List ℚ)
    (startTimes : List ℚ) (type : AnalysisType)
    (hn : 1 ≤ (SetData M mkSimple mkElevator mkArm st rawData filteredData
        ffGains startTimes type (fun _ => false)).timeSeriesPoints) :
    (SetData M mkSimple mkElevator mkArm st rawData filteredData ffGains
        startTimes type (fun _ => false)).RMSE
      = Real.sqrt (((SetData M mkSimple mkElevator mkArm st rawData
            filteredData ffGains startTimes type
            (fun _ => false)).simSquaredErrorSum : ℝ)
          / ((SetData M mkSimple mkElevator mkArm st rawData filteredData
            ffGains startTimes type (fun _ => false)).timeSeriesPoints : ℝ))
    ∧ 0 ≤ (SetData M mkSimple mkElevator mkArm st rawData filteredData ffGains
        startTimes type (fun _ => false)).RMSE
    ∧ ((∀ pm ∈ PredPairsOf (ModelOf mkSimple mkElevator mkArm ffGains type)
            startTimes rawData.slow
          ++ PredPairsOf (ModelOf mkSimple mkElevator mkArm ffGains type)
            startTimes rawData.fast, pm.1 = pm.2) →
        (SetData M mkSimple mkElevator mkArm st rawData filteredData ffGains
          startTimes type (fun _ => false)).RMSE = 0) := by
  obtain ⟨he, hv, hcnt, hr, hs⟩ := setData_false_pieces M mkSimple mkElevator
    mkArm st rawData filteredData ffGains startTimes type
  refine ⟨hr, ?_, ?_⟩
  · rw [hr]
    exact Real.sqrt_nonneg _
  · intro hall
    have hes : errSum (PredPairsOf (ModelOf mkSimple mkElevator mkArm ffGains
        type) startTimes rawData.slow) = 0 :=
      errSum_zero _ (fun pm hpm => hall pm (List.mem_append_left _ hpm))
    have hef : errSum (PredPairsOf (ModelOf mkSimple mkElevator mkArm ffGains
        type) startTimes rawData.fast) = 0 :=
      errSum_zero _ (fun pm hpm => hall pm (List.mem_append_right _ hpm))
    rw [hr, he, hes, hef]
    norm_num

/-- C7: R-squared is computed as 1 - RMSE / sqrt(total squared measured
    velocity / count); with at least one contributing sample, RMSE = 0 and
    non-zero total squared measured velocity, it equals exactly 1. -/
theorem claim_C7 (σ : Type) (M : ℕ) (mkSimple : ℚ → ℚ → ℚ → MechanismModel σ)
    (mkElevator mkArm : ℚ → ℚ → ℚ → ℚ → MechanismModel σ)
    (st : PlotState) (rawData filteredData : Storage) (ffGains : List ℚ)
    (startTimes : List ℚ) (type : AnalysisType)
    (hn : 1 ≤ (SetData M mkSimple mkElevator mkArm st rawData filteredData
        ffGains startTimes type (fun _ => false)).timeSeriesPoints)
    (hr0 : (SetData M mkSimple mkElevator mkArm st rawData filteredData
        ffGains startTimes type (fun _ => false)).RMSE = 0)
    (hvz : (SetData M mkSimple mkElevator mkArm st rawData filteredData
        ffGains startTimes type (fun _ => false)).squaredVariationSum ≠ 0) :
    (SetData M mkSimple mkElevator mkArm st rawData filteredData ffGains
        startTimes type (fun _ => false)).RSquared
      = 1 - (SetData M mkSimple mkElevator mkArm st rawData filteredData
          ffGains startTimes type (fun _ => false)).RMSE
        / Real.sqrt (((SetData M mkSimple mkElevator mkArm st rawData
            filteredData ffGains startTimes type
            (fun _ => false)).squaredVariationSum : ℝ)
          / ((SetData M mkSimple mkElevator mkArm st rawData filteredData
            ffGains startTimes type (fun _ => false)).timeSeriesPoints : ℝ))
    ∧ (SetData M mkSimple mkElevator mkArm st rawData filteredData ffGains
        startTimes type (fun _ => false)).RSquared = 1 := by
  obtain ⟨he, hv, hcnt, hr, hs⟩ := setData_false_pieces M mkSimple mkElevator
    mkArm st rawData filteredData ffGains startTimes type
  refine ⟨hs, ?_⟩
  rw [hs, hr0]
  norm_num

/-- Modelled from the spec: "zero measured-velocity variance makes
    R-squared undefined; must be detected and surfaced as not computable
    rather than propagated as NaN/garbage to the UI".  The guarded
    reduction the spec demands: no value when the total squared measured
    velocity is zero, otherwise the R-squared formula. -/
noncomputable def rSquaredChecked (errTotal varTotal : ℚ) (count : ℕ) :
    Option ℝ :=
  if varTotal = 0 then none
  else some (1 - Real.sqrt ((errTotal : ℝ) / (count : ℝ))
    / Real.sqrt ((varTotal : ℝ) / (count : ℝ)))

/-- A two-sample run whose measured velocities are all zero (degenerate
    variance), as a concrete input for C3. -/
def zeroVel0 : PreparedData := ⟨0, 1, 0, 0, 0, 1, 0, 0⟩

/-- The second all-zero-velocity sample for C3. -/
def zeroVel1 : PreparedData := ⟨1, 1, 0, 0, 0, 0, 0, 0⟩

/-- Counterexample to C3 as stated: on a degenerate input with zero total
    squared measured velocity, the code's surfaced R-squared is a plain
    number produced by the unguarded division formula, and does not agree
    with the guarded not-computable result the claim describes. -/
theorem claim_C3_counterexample :
    (SetData 8 trivSim3 trivSim4 trivSim4 preState ⟨[zeroVel0, zeroVel1],
        [zeroVel0, zeroVel1]⟩ ⟨[zeroVel0, zeroVel1], [zeroVel0, zeroVel1]⟩
        [1/2, 1/2, 0] [] AnalysisType.kSimple
        (fun _ => false)).squaredVariationSum = 0
    ∧ some ((SetData 8 trivSim3 trivSim4 trivSim4 preState ⟨[zeroVel0, zeroVel1],
        [zeroVel0, zeroVel1]⟩ ⟨[zeroVel0, zeroVel1], [zeroVel0, zeroVel1]⟩
        [1/2, 1/2, 0] [] AnalysisType.kSimple (fun _ => false)).RSquared)
      ≠ rSquaredChecked
        ((SetData 8 trivSim3 trivSim4 trivSim4 preState ⟨[zeroVel0, zeroVel1],
          [zeroVel0, zeroVel1]⟩ ⟨[zeroVel0, zeroVel1], [zeroVel0, zeroVel1]⟩
          [1/2, 1/2, 0] [] AnalysisType.kSimple
          (fun _ => false)).simSquaredErrorSum)
        ((SetData 8 trivSim3 trivSim4 trivSim4 preState ⟨[zeroVel0, zeroVel1],
          [zeroVel0, zeroVel1]⟩ ⟨[zeroVel0, zeroVel1], [zeroVel0, zeroVel1]⟩
          [1/2, 1/2, 0] [] AnalysisType.kSimple
          (fun _ => false)).squaredVariationSum)
        ((SetData 8 trivSim3 trivSim4 trivSim4 preState ⟨[zeroVel0, zeroVel1],
          [zeroVel0, zeroVel1]⟩ ⟨[zeroVel0, zeroVel1], [zeroVel0, zeroVel1]⟩
          [1/2, 1/2, 0] [] AnalysisType.kSimple
          (fun _ => false)).timeSeriesPoints) := by
  have hvar : (SetData 8 trivSim3 trivSim4 trivSim4 preState ⟨[zeroVel0, zeroVel1],
      [zeroVel0, zeroVel1]⟩ ⟨[zeroVel0, zeroVel1], [zeroVel0, zeroVel1]⟩
      [1/2, 1/2, 0] [] AnalysisType.kSimple
      (fun _ => false)).squaredVariationSum = 0 := by
    simp +decide [SetData, SetDataTail, strideLoop, stepOf_two_eight, SlowBody,
      FastBody, RawSlowBody, RawFastBody, SetRawTimeData, appendFiltered,
      appendRaw, ResetData, VportionSlow, VportionFast, copysign, ModelOf,
      PopulateTimeDomainSim, PopulateLoop, GetMeanTimeDelta, minVelocity,
      maxVelocity, minAcceleration, maxAcceleration, zeroVel0, zeroVel1,
      trivSim3, trivSim4, Function.update, abs]
  refine ⟨hvar, ?_⟩
  rw [hvar]
  simp [rSquaredChecked]

/-- C3, corrected: the code performs no zero-variance detection.  m_RSquared
    is assigned unconditionally by the formula 1 - RMSE / sqrt(total squared
    measured velocity / count); when the accumulated total is zero the
    division by sqrt(0 / count) is still performed (in IEEE doubles this
    propagates NaN or negative infinity to the UI), and the guarded
    not-computable reduction the spec describes returns no value there. -/
theorem claim_C3 (σ : Type) (M : ℕ) (mkSimple : ℚ → ℚ → ℚ → MechanismModel σ)
    (mkElevator mkArm : ℚ → ℚ → ℚ → ℚ → MechanismModel σ)
    (st : PlotState) (rawData filteredData : Storage) (ffGains : List ℚ)
    (startTimes : List ℚ) (type : AnalysisType)
    (hvz : (SetData M mkSimple mkElevator mkArm st rawData filteredData
        ffGains startTimes type (fun _ => false)).squaredVariationSum = 0) :
    (SetData M mkSimple mkElevator mkArm st rawData filteredData ffGains
        startTimes type (fun _ => false)).RSquared
      = 1 - (SetData M mkSimple mkElevator mkArm st rawData filteredData
          ffGains startTimes type (fun _ => false)).RMSE
        / Real.sqrt ((0 : ℝ)
          / ((SetData M mkSimple mkElevator mkArm st rawData filteredData
            ffGains startTimes type (fun _ => false)).timeSeriesPoints : ℝ))
    ∧ rSquaredChecked
        ((SetData M mkSimple mkElevator mkArm st rawData filteredData ffGains
          startTimes type (fun _ => false)).simSquaredErrorSum)
        ((SetData M mkSimple mkElevator mkArm st rawData filteredData ffGains
          startTimes type (fun _ => false)).squaredVariationSum)
        ((SetData M mkSimple mkElevator mkArm st rawData filteredData ffGains
          startTimes type (fun _ => false)).timeSeriesPoints)
      = none := by
  obtain ⟨he, hv, hcnt, hr, hs⟩ := setData_false_pieces M mkSimple mkElevator
    mkArm st rawData filteredData ffGains startTimes type
  constructor
  · rw [hs]
    rw [show (((SetData M mkSimple mkElevator mkArm st rawData filteredData
        ffGains startTimes type (fun _ => false)).squaredVariationSum : ℚ) : ℝ)
      = (0 : ℝ) by rw [hvz]; norm_num]
  · rw [hvz]
    simp [rSquaredChecked]

/-- A second unit-velocity sample, one second after sampleA. -/
def sampleB : PreparedData := ⟨1, 1, 0, 1, 0, 0, 0, 0⟩

/-- The concrete full recomputation pass used by the C6 and C7 witnesses:
    both runs hold two unit-velocity samples, so the stand-in model predicts
    the measured velocity exactly. -/
noncomputable def setDataPerfect : PlotState :=
  SetData 8 trivSim3 trivSim4 trivSim4 preState
    ⟨[sampleA, sampleB], [sampleA, sampleB]⟩
    ⟨[sampleA, sampleB], [sampleA, sampleB]⟩
    [1/2, 1/2, 0] [] AnalysisType.kSimple (fun _ => false)

/-- The concrete degenerate pass used by the C3 witness: all measured
    velocities are zero. -/
noncomputable def setDataDegenerate : PlotState :=
  SetData 8 trivSim3 trivSim4 trivSim4 preState
    ⟨[zeroVel0, zeroVel1], [zeroVel0, zeroVel1]⟩
    ⟨[zeroVel0, zeroVel1], [zeroVel0, zeroVel1]⟩
    [1/2, 1/2, 0] [] AnalysisType.kSimple (fun _ => false)

/-- Witness for C3 at a concrete input. -/
theorem claim_C3_witness :
    setDataDegenerate.squaredVariationSum = 0
    ∧ (setDataDegenerate.RSquared
        = 1 - setDataDegenerate.RMSE
          / Real.sqrt ((0 : ℝ) / (setDataDegenerate.timeSeriesPoints : ℝ))
      ∧ rSquaredChecked setDataDegenerate.simSquaredErrorSum
          setDataDegenerate.squaredVariationSum
          setDataDegenerate.timeSeriesPoints = none) := by
  have hvz : setDataDegenerate.squaredVariationSum = 0 := by
    simp +decide [setDataDegenerate, SetData, SetDataTail, strideLoop,
      stepOf_two_eight, SlowBody, FastBody, RawSlowBody, RawFastBody,
      SetRawTimeData, appendFiltered, appendRaw, ResetData, VportionSlow,
      VportionFast, copysign, ModelOf, PopulateTimeDomainSim, PopulateLoop,
      GetMeanTimeDelta, minVelocity, maxVelocity, minAcceleration,
      maxAcceleration, zeroVel0, zeroVel1, trivSim3, trivSim4,
      Function.update, abs]
  exact ⟨hvz, claim_C3 (ℚ × ℚ) 8 trivSim3 trivSim4 trivSim4 preState
    ⟨[zeroVel0, zeroVel1], [zeroVel0, zeroVel1]⟩
    ⟨[zeroVel0, zeroVel1], [zeroVel0, zeroVel1]⟩
    [1/2, 1/2, 0] [] AnalysisType.kSimple hvz⟩

/-- Witness for C6 at a concrete input. -/
theorem claim_C6_witness :
    1 ≤ setDataPerfect.timeSeriesPoints
    ∧ (setDataPerfect.RMSE
        = Real.sqrt ((setDataPerfect.simSquaredErrorSum : ℝ)
            / (setDataPerfect.timeSeriesPoints : ℝ))
      ∧ 0 ≤ setDataPerfect.RMSE
      ∧ ((∀ pm ∈ PredPairsOf (ModelOf trivSim3 trivSim4 trivSim4
              [1/2, 1/2, 0] AnalysisType.kSimple) [] [sampleA, sampleB]
            ++ PredPairsOf (ModelOf trivSim3 trivSim4 trivSim4
              [1/2, 1/2, 0] AnalysisType.kSimple) [] [sampleA, sampleB],
            pm.1 = pm.2) →
          setDataPerfect.RMSE = 0)) := by
  have hn : 1 ≤ setDataPerfect.timeSeriesPoints := by
    simp +decide [setDataPerfect, SetData, SetDataTail, strideLoop,
      stepOf_two_eight, SlowBody, FastBody, RawSlowBody, RawFastBody,
      SetRawTimeData, appendFiltered, appendRaw, ResetData, VportionSlow,
      VportionFast, copysign, ModelOf, PopulateTimeDomainSim, PopulateLoop,
      GetMeanTimeDelta, minVelocity, maxVelocity, minAcceleration,
      maxAcceleration, sampleA, sampleB, trivSim3, trivSim4,
      Function.update, abs]
  exact ⟨hn, claim_C6 (ℚ × ℚ) 8 trivSim3 trivSim4 trivSim4 preState
    ⟨[sampleA, sampleB], [sampleA, sampleB]⟩
    ⟨[sampleA, sampleB], [sampleA, sampleB]⟩
    [1/2, 1/2, 0] [] AnalysisType.kSimple hn⟩

/-- Witness for C7 at a concrete input. -/
theorem claim_C7_witness :
    (1 ≤ setDataPerfect.timeSeriesPoints
      ∧ setDataPerfect.RMSE = 0
      ∧ setDataPerfect.squaredVariationSum ≠ 0)
    ∧ (setDataPerfect.RSquared
        = 1 - setDataPerfect.RMSE
          / Real.sqrt ((setDataPerfect.squaredVariationSum : ℝ)
            / (setDataPerfect.timeSeriesPoints : ℝ))
      ∧ setDataPerfect.RSquared = 1) := by
  have hn : 1 ≤ setDataPerfect.timeSeriesPoints := by
    simp +decide [setDataPerfect, SetData, SetDataTail, strideLoop,
      stepOf_two_eight, SlowBody, FastBody, RawSlowBody, RawFastBody,
      SetRawTimeData, appendFiltered, appendRaw, ResetData, VportionSlow,
      VportionFast, copysign, ModelOf, PopulateTimeDomainSim, PopulateLoop,
      GetMeanTimeDelta, minVelocity, maxVelocity, minAcceleration,
      maxAcceleration, sampleA, sampleB, trivSim3, trivSim4,
      Function.update, abs]
  have he0 : setDataPerfect.simSquaredErrorSum = 0 := by
    simp +decide [setDataPerfect, SetData, SetDataTail, strideLoop,
      stepOf_two_eight, SlowBody, FastBody, RawSlowBody, RawFastBody,
      SetRawTimeData, appendFiltered, appendRaw, ResetData, VportionSlow,
      VportionFast, copysign, ModelOf, PopulateTimeDomainSim, PopulateLoop,
      GetMeanTimeDelta, minVelocity, maxVelocity, minAcceleration,
      maxAcceleration, sampleA, sampleB, trivSim3, trivSim4,
      Function.update, abs]
  have hv2 : setDataPerfect.squaredVariationSum = 2 := by
    simp +decide [setDataPerfect, SetData, SetDataTail, strideLoop,
      stepOf_two_eight, SlowBody, FastBody, RawSlowBody, RawFastBody,
      SetRawTimeData, appendFiltered, appendRaw, ResetData, VportionSlow,
      VportionFast, copysign, ModelOf, PopulateTimeDomainSim, PopulateLoop,
      GetMeanTimeDelta, minVelocity, maxVelocity, minAcceleration,
      maxAcceleration, sampleA, sampleB, trivSim3, trivSim4,
      Function.update, abs]
    norm_num
  have hr0 : setDataPerfect.RMSE = 0 := by
    have hp := setData_false_pieces 8 trivSim3 trivSim4 trivSim4 preState
      ⟨[sampleA, sampleB], [sampleA, sampleB]⟩
      ⟨[sampleA, sampleB], [sampleA, sampleB]⟩
      [1/2, 1/2, 0] [] AnalysisType.kSimple
    have hrm := hp.2.2.2.1
    rw [show SetData 8 trivSim3 trivSim4 trivSim4 preState
        ⟨[sampleA, sampleB], [sampleA, sampleB]⟩
        ⟨[sampleA, sampleB], [sampleA, sampleB]⟩
        [1/2, 1/2, 0] [] AnalysisType.kSimple (fun _ => false)
      = setDataPerfect from rfl] at hrm
    rw [hrm, he0]
    norm_num
  have hvz : setDataPerfect.squaredVariationSum ≠ 0 := by
    rw [hv2]
    norm_num
  exact ⟨⟨hn, hr0, hvz⟩, claim_C7 (ℚ × ℚ) 8 trivSim3 trivSim4 trivSim4 preState
    ⟨[sampleA, sampleB], [sampleA, sampleB]⟩
    ⟨[sampleA, sampleB], [sampleA, sampleB]⟩
    [1/2, 1/2, 0] [] AnalysisType.kSimple hn hr0 hvz⟩

lemma stepOf_mul_bound (n M : ℕ) (hM : 1 ≤ M) :
    n ≤ stepOf n M * ((M + 3) / 4) := by
  have hMq : (0 : ℚ) < (M : ℚ) := by exact_mod_cast hM
  have hceil : ((n : ℚ) / (M : ℚ) * 4) ≤ (stepOf n M : ℚ) := Nat.le_ceil _
  have h4n : 4 * n ≤ stepOf n M * M := by
    have h : ((4 * n : ℕ) : ℚ) ≤ ((stepOf n M * M : ℕ) : ℚ) := by
      push_cast
      calc (4 : ℚ) * n = ((n : ℚ) / (M : ℚ) * 4) * M := by
            field_simp
            ring
        _ ≤ (stepOf n M : ℚ) * M := by
            apply mul_le_mul_of_nonneg_right hceil (le_of_lt hMq)
    exact_mod_cast h
  have hM4 : M ≤ 4 * ((M + 3) / 4) := by omega
  have h2 : stepOf n M * M ≤ 4 * (stepOf n M * ((M + 3) / 4)) := by
    calc stepOf n M * M ≤ stepOf n M * (4 * ((M + 3) / 4)) :=
          Nat.mul_le_mul_left _ hM4
      _ = 4 * (stepOf n M * ((M + 3) / 4)) := by ring
  have := le_trans h4n h2
  omega

lemma strideLoop_len_le (f : PlotState → List (ℚ × ℚ))
    (body : ℕ → PlotState → PlotState) (abort : ℕ → Bool) (size step : ℕ)
    (hb : ∀ i st, (f (body i st)).length ≤ (f st).length + 1) :
    ∀ (fuel i c : ℕ) (st : PlotState) (k : ℕ), size ≤ i + step * k →
      (f ((strideLoop body abort size step fuel i c st).1)).length
        ≤ (f st).length + k := by
  intro fuel
  induction fuel with
  | zero => intro i c st k hk; simp [strideLoop]
  | succ fuel ih =>
    intro i c st k hk
    by_cases h : i < size
    · by_cases ha : abort c
      · simp [strideLoop, h, ha]
      · simp only [strideLoop, if_pos h, ha, Bool.false_eq_true, if_false]
        have hk1 : 1 ≤ k := by
          rcases Nat.eq_zero_or_pos k with hk0 | hk0
          · subst hk0; omega
          · exact hk0
        have hmul : step * k = step + step * (k - 1) := by
          rcases k with _ | k
          · omega
          · simp [Nat.mul_succ]
            omega
        have hrec := ih (i + step) (c + 1) (body i st) (k - 1) (by omega)
        calc (f ((strideLoop body abort size step fuel (i + step) (c + 1)
                (body i st)).1)).length
            ≤ (f (body i st)).length + (k - 1) := hrec
          _ ≤ (f st).length + 1 + (k - 1) := by
              have := hb i st
              omega
          _ ≤ (f st).length + k := by omega
    · simp [strideLoop, h]

lemma strideLoop_len_le0 (f : PlotState → List (ℚ × ℚ))
    (body : ℕ → PlotState → PlotState) (abort : ℕ → Bool) (size step : ℕ)
    (hb : ∀ i st, (f (body i st)).length ≤ (f st).length + 1)
    (hb0 : ∀ st, f (body 0 st) = f st) :
    ∀ (fuel c : ℕ) (st : PlotState) (k : ℕ), size ≤ step * k →
      (f ((strideLoop body abort size step fuel 0 c st).1)).length
        ≤ (f st).length + (k - 1) := by
  intro fuel c st k hk
  cases fuel with
  | zero => simp [strideLoop]
  | succ fuel =>
    by_cases h : 0 < size
    · by_cases ha : abort c
      · simp [strideLoop, h, ha]
      · simp only [strideLoop, if_pos h, ha, Bool.false_eq_true, if_false]
        have hk1 : 1 ≤ k := by
          rcases Nat.eq_zero_or_pos k with hk0 | hk0
          · subst hk0; omega
          · exact hk0
        have hmul : step * k = step + step * (k - 1) := by
          rcases k with _ | k
          · omega
          · simp [Nat.mul_succ]
            omega
        have hrec := strideLoop_len_le f body abort size step hb fuel
          (0 + step) (c + 1) (body 0 st) (k - 1) (by omega)
        rw [hb0 st] at hrec
        exact hrec
    · simp [strideLoop, h]

lemma slowBody_len (slow : List PreparedData) (ffGains : List ℚ)
    (type : AnalysisType) (startTimes : List ℚ) (Kv mn mx : ℚ) (i : ℕ)
    (st : PlotState) :
    (∀ j : Fin 7,
      ((SlowBody slow ffGains type startTimes Kv mn mx i st).filteredData
        j).length ≤ (st.filteredData j).length + 1)
    ∧ (SlowBody slow ffGains type startTimes Kv mn mx i st).rawData
        = st.rawData
    ∧ (∀ j : Fin 7, j ≠ 0 → j ≠ 2 → j ≠ 3 → j ≠ 6 →
        (SlowBody slow ffGains type startTimes Kv mn mx i st).filteredData j
          = st.filteredData j)
    ∧ (SlowBody slow ffGains type startTimes Kv mn mx 0 st).filteredData 6
        = st.filteredData 6 := by
  refine ⟨?_, ?_, ?_, ?_⟩
  · intro j
    simp only [SlowBody, appendFiltered,
      apply_ite (fun s : PlotState => ((s.filteredData j)).length),
      Function.update_apply]
    split_ifs <;> simp_all <;> omega
  · simp only [SlowBody, appendFiltered,
      apply_ite (fun s : PlotState => s.rawData)]
    simp
  · intro j h0 h2 h3 h6
    simp only [SlowBody, appendFiltered,
      apply_ite (fun s : PlotState => s.filteredData j), Function.update_apply]
    simp [h0, h2, h3, h6]
  · simp +decide [SlowBody, appendFiltered, Function.update_apply]

lemma fastBody_len (fast : List PreparedData) (ffGains : List ℚ)
    (type : AnalysisType) (startTimes : List ℚ) (Ka mn mx : ℚ) (i : ℕ)
    (st : PlotState) :
    (∀ j : Fin 7,
      ((FastBody fast ffGains type startTimes Ka mn mx i st).filteredData
        j).length ≤ (st.filteredData j).length + 1)
    ∧ (FastBody fast ffGains type startTimes Ka mn mx i st).rawData
        = st.rawData
    ∧ (∀ j : Fin 7, j ≠ 1 → j ≠ 4 → j ≠ 5 → j ≠ 6 →
        (FastBody fast ffGains type startTimes Ka mn mx i st).filteredData j
          = st.filteredData j)
    ∧ (FastBody fast ffGains type startTimes Ka mn mx 0 st).filteredData 6
        = st.filteredData 6 := by
  refine ⟨?_, ?_, ?_, ?_⟩
  · intro j
    simp only [FastBody, appendFiltered,
      apply_ite (fun s : PlotState => ((s.filteredData j)).length),
      Function.update_apply]
    split_ifs <;> simp_all <;> omega
  · simp only [FastBody, appendFiltered,
      apply_ite (fun s : PlotState => s.rawData)]
    simp
  · intro j h1 h4 h5 h6
    simp only [FastBody, appendFiltered,
      apply_ite (fun s : PlotState => s.filteredData j), Function.update_apply]
    simp [h1, h4, h5, h6]
  · simp +decide [FastBody, appendFiltered, Function.update_apply]

lemma rawBody_len (run : List PreparedData) (i : ℕ) (st : PlotState) :
    ((∀ j : Fin 7, ((RawSlowBody run i st).rawData j).length
        ≤ (st.rawData j).length + 1)
      ∧ (RawSlowBody run i st).filteredData = st.filteredData
      ∧ (∀ j : Fin 7, j ≠ 2 → j ≠ 3 →
          (RawSlowBody run i st).rawData j = st.rawData j))
    ∧ ((∀ j : Fin 7, ((RawFastBody run i st).rawData j).length
        ≤ (st.rawData j).length + 1)
      ∧ (RawFastBody run i st).filteredData = st.filteredData
      ∧ (∀ j : Fin 7, j ≠ 4 → j ≠ 5 →
          (RawFastBody run i st).rawData j = st.rawData j)) := by
  refine ⟨⟨?_, ?_, ?_⟩, ⟨?_, ?_, ?_⟩⟩
  · intro j
    simp only [RawSlowBody, appendRaw, Function.update_apply]
    split_ifs <;> simp_all
  · simp [RawSlowBody, appendRaw]
  · intro j h2 h3
    simp [RawSlowBody, appendRaw, Function.update_apply, h2, h3]
  · intro j
    simp only [RawFastBody, appendRaw, Function.update_apply]
    split_ifs <;> simp_all
  · simp [RawFastBody, appendRaw]
  · intro j h4 h5
    simp [RawFastBody, appendRaw, Function.update_apply, h4, h5]

lemma setRawTimeData_preserve (M : ℕ) (rs rf : List PreparedData)
    (abort : ℕ → Bool) (st : PlotState) (c : ℕ) (hM : 1 ≤ M) :
    ((SetRawTimeData M rs rf abort st c).1).filteredData = st.filteredData
    ∧ ∀ j : Fin 7, (((SetRawTimeData M rs rf abort st c).1).rawData j).length
        ≤ (st.rawData j).length + (M + 3) / 4 := by
  simp only [SetRawTimeData]
  rcases h1 : strideLoop (RawSlowBody rs) abort rs.length (stepOf rs.length M)
      rs.length 0 c st with ⟨st1, c1, b1⟩
  have hf1 : st1.filteredData = st.filteredData := by
    have h := strideLoop_proj (fun s => s.filteredData) (RawSlowBody rs) abort
      rs.length (stepOf rs.length M)
      (fun i s => ((rawBody_len rs i s).1).2.1) rs.length 0 c st
    rw [h1] at h
    exact h
  have hle1 : ∀ j : Fin 7, (st1.rawData j).length
      ≤ (st.rawData j).length + (M + 3) / 4 := by
    intro j
    have h := strideLoop_len_le (fun s => s.rawData j) (RawSlowBody rs) abort
      rs.length (stepOf rs.length M)
      (fun i s => ((rawBody_len rs i s).1).1 j) rs.length 0 c st ((M + 3) / 4)
      (by simpa using stepOf_mul_bound rs.length M hM)
    rw [h1] at h
    exact h
  have heq1 : ∀ j : Fin 7, j ≠ 2 → j ≠ 3 → st1.rawData j = st.rawData j := by
    intro j h2 h3
    have h := strideLoop_proj (fun s => s.rawData j) (RawSlowBody rs) abort
      rs.length (stepOf rs.length M)
      (fun i s => ((rawBody_len rs i s).1).2.2 j h2 h3) rs.length 0 c st
    rw [h1] at h
    exact h
  cases b1 with
  | true => exact ⟨hf1, hle1⟩
  | false =>
    constructor
    · show ((strideLoop (RawFastBody rf) abort rf.length (stepOf rf.length M)
          rf.length 0 c1 st1).1).filteredData = st.filteredData
      have h := strideLoop_proj (fun s => s.filteredData) (RawFastBody rf) abort
        rf.length (stepOf rf.length M)
        (fun i s => ((rawBody_len rf i s).2).2.1) rf.length 0 c1 st1
      rw [h, hf1]
    · intro j
      show (((strideLoop (RawFastBody rf) abort rf.length (stepOf rf.length M)
          rf.length 0 c1 st1).1).rawData j).length
        ≤ (st.rawData j).length + (M + 3) / 4
      have hle2 : (((strideLoop (RawFastBody rf) abort rf.length
          (stepOf rf.length M) rf.length 0 c1 st1).1).rawData j).length
          ≤ (st1.rawData j).length + (M + 3) / 4 :=
        strideLoop_len_le (fun s => s.rawData j) (RawFastBody rf) abort
          rf.length (stepOf rf.length M)
          (fun i s => ((rawBody_len rf i s).2).1 j) rf.length 0 c1 st1
          ((M + 3) / 4) (by simpa using stepOf_mul_bound rf.length M hM)
      have heq2 : ∀ h4 : j ≠ 4, ∀ h5 : j ≠ 5,
          ((strideLoop (RawFastBody rf) abort rf.length (stepOf rf.length M)
            rf.length 0 c1 st1).1).rawData j = st1.rawData j := by
        intro h4 h5
        exact strideLoop_proj (fun s => s.rawData j) (RawFastBody rf) abort
          rf.length (stepOf rf.length M)
          (fun i s => ((rawBody_len rf i s).2).2.2 j h4 h5) rf.length 0 c1 st1
      fin_cases j <;>
        simp only [Fin.isValue] at hle2 heq2 ⊢
      · rw [heq2 (by decide) (by decide), heq1 _ (by decide) (by decide)]
        omega
      · rw [heq2 (by decide) (by decide), heq1 _ (by decide) (by decide)]
        omega
      · rw [heq2 (by decide) (by decide)]
        exact hle1 _
      · rw [heq2 (by decide) (by decide)]
        exact hle1 _
      · have h4 := heq1 ⟨4, by norm_num⟩ (by decide) (by decide)
        rw [h4] at hle2
        exact hle2
      · have h5 := heq1 ⟨5, by norm_num⟩ (by decide) (by decide)
        rw [h5] at hle2
        exact hle2
      · rw [heq2 (by decide) (by decide), heq1 _ (by decide) (by decide)]
        omega

lemma setDataTail_len (M : ℕ) (model : MechanismModel σ) (rawData : Storage)
    (startTimes : List ℚ) (fastStep : ℕ) (minTime maxTime dtMean : ℚ)
    (abort : ℕ → Bool) (st : PlotState) (c : ℕ) (hM : 1 ≤ M) :
    (SetDataTail M model rawData startTimes fastStep minTime maxTime dtMean
        abort st c).filteredData = st.filteredData
    ∧ ∀ j : Fin 7, ((SetDataTail M model rawData startTimes fastStep minTime
        maxTime dtMean abort st c).rawData j).length
      ≤ (st.rawData j).length + (M + 3) / 4 := by
  simp only [SetDataTail]
  rcases h3 : SetRawTimeData M rawData.slow rawData.fast abort
      { st with dtMeanLine := [(minTime, 1000 * dtMean), (maxTime, 1000 * dtMean)] } c
    with ⟨st4, c4, b4⟩
  have hpres := setRawTimeData_preserve M rawData.slow rawData.fast abort
    { st with dtMeanLine := [(minTime, 1000 * dtMean), (maxTime, 1000 * dtMean)] } c hM
  rw [h3] at hpres
  obtain ⟨hf4, hr4⟩ := hpres
  cases b4 with
  | true => exact ⟨hf4, hr4⟩
  | false => exact ⟨hf4, hr4⟩

/-- C8: the per-run stride ceil(run_length / budget * 4) is at least 1 for
    every non-empty run, and no plotted scatter series (filtered or raw, any
    chart) ever holds more points than the visualization budget, whatever
    the run lengths and wherever the cancellation flag interrupts the pass.
    The budget M stands for the kMaxSize constant of AnalyzerPlot.h. -/
theorem claim_C8 (σ : Type) (M : ℕ) (mkSimple : ℚ → ℚ → ℚ → MechanismModel σ)
    (mkElevator mkArm : ℚ → ℚ → ℚ → ℚ → MechanismModel σ)
    (st : PlotState) (rawData filteredData : Storage) (ffGains : List ℚ)
    (startTimes : List ℚ) (type : AnalysisType) (abort : ℕ → Bool)
    (hM : 1 ≤ M) :
    (∀ n : ℕ, 1 ≤ n → 1 ≤ stepOf n M)
    ∧ ∀ j : Fin 7,
      ((SetData M mkSimple mkElevator mkArm st rawData filteredData ffGains
          startTimes type abort).filteredData j).length ≤ M
      ∧ ((SetData M mkSimple mkElevator mkArm st rawData filteredData ffGains
          startTimes type abort).rawData j).length ≤ M := by
  have hKM : (M + 3) / 4 ≤ M := by omega
  have hK6 : ((M + 3) / 4 - 1) + ((M + 3) / 4 - 1) ≤ M := by omega
  refine ⟨fun n hn => one_le_stepOf n M hn hM, ?_⟩
  simp only [SetData]
  rcases h1 : strideLoop
      (SlowBody filteredData.slow ffGains type startTimes (ffGains.getD 1 0)
        (minVelocity filteredData.slow) (maxVelocity filteredData.slow))
      abort filteredData.slow.length (stepOf filteredData.slow.length M)
      filteredData.slow.length 0 0 (ResetData st) with ⟨st1, c1, b1⟩
  have A1 : ∀ j : Fin 7, (st1.filteredData j).length ≤ (M + 3) / 4 := by
    intro j
    have h := strideLoop_len_le (fun s => s.filteredData j) _ abort
      filteredData.slow.length (stepOf filteredData.slow.length M)
      (fun i s => (slowBody_len filteredData.slow ffGains type startTimes
        (ffGains.getD 1 0) (minVelocity filteredData.slow)
        (maxVelocity filteredData.slow) i s).1 j)
      filteredData.slow.length 0 0 (ResetData st) ((M + 3) / 4)
      (by simpa using stepOf_mul_bound filteredData.slow.length M hM)
    rw [h1] at h
    simpa [ResetData] using h
  have A6 : (st1.filteredData 6).length ≤ (M + 3) / 4 - 1 := by
    have h := strideLoop_len_le0 (fun s => s.filteredData 6) _ abort
      filteredData.slow.length (stepOf filteredData.slow.length M)
      (fun i s => (slowBody_len filteredData.slow ffGains type startTimes
        (ffGains.getD 1 0) (minVelocity filteredData.slow)
        (maxVelocity filteredData.slow) i s).1 6)
      (fun s => (slowBody_len filteredData.slow ffGains type startTimes
        (ffGains.getD 1 0) (minVelocity filteredData.slow)
        (maxVelocity filteredData.slow) 0 s).2.2.2)
      filteredData.slow.length 0 (ResetData st) ((M + 3) / 4)
      (stepOf_mul_bound filteredData.slow.length M hM)
    rw [h1] at h
    simpa [ResetData] using h
  have A1eq : ∀ j : Fin 7, j ≠ 0 → j ≠ 2 → j ≠ 3 → j ≠ 6 →
      st1.filteredData j = [] := by
    intro j h0 h2 h3 h6
    have h := strideLoop_proj (fun s => s.filteredData j) _ abort
      filteredData.slow.length (stepOf filteredData.slow.length M)
      (fun i s => (slowBody_len filteredData.slow ffGains type startTimes
        (ffGains.getD 1 0) (minVelocity filteredData.slow)
        (maxVelocity filteredData.slow) i s).2.2.1 j h0 h2 h3 h6)
      filteredData.slow.length 0 0 (ResetData st)
    rw [h1] at h
    simpa [ResetData] using h
  have Araw : st1.rawData = fun _ => [] := by
    have h := strideLoop_proj (fun s => s.rawData) _ abort
      filteredData.slow.length (stepOf filteredData.slow.length M)
      (fun i s => (slowBody_len filteredData.slow ffGains type startTimes
        (ffGains.getD 1 0) (minVelocity filteredData.slow)
        (maxVelocity filteredData.slow) i s).2.1)
      filteredData.slow.length 0 0 (ResetData st)
    rw [h1] at h
    simpa [ResetData] using h
  cases b1 with
  | true =>
    intro j
    refine ⟨le_trans (A1 j) hKM, ?_⟩
    rw [Araw]
    simp
  | false =>
    dsimp only
    rcases h2 : strideLoop
        (FastBody filteredData.fast ffGains type startTimes (ffGains.getD 2 0)
          (minAcceleration filteredData.fast)
          (maxAcceleration filteredData.fast))
        abort filteredData.fast.length (stepOf filteredData.fast.length M)
        filteredData.fast.length 0 c1 st1 with ⟨st2, c2, b2⟩
    have B1 : ∀ j : Fin 7, (st2.filteredData j).length
        ≤ (st1.filteredData j).length + (M + 3) / 4 := by
      intro j
      have h := strideLoop_len_le (fun s => s.filteredData j) _ abort
        filteredData.fast.length (stepOf filteredData.fast.length M)
        (fun i s => (fastBody_len filteredData.fast ffGains type startTimes
          (ffGains.getD 2 0) (minAcceleration filteredData.fast)
          (maxAcceleration filteredData.fast) i s).1 j)
        filteredData.fast.length 0 c1 st1 ((M + 3) / 4)
        (by simpa using stepOf_mul_bound filteredData.fast.length M hM)
      rw [h2] at h
      exact h
    have B6 : (st2.filteredData 6).length
        ≤ (st1.filteredData 6).length + ((M + 3) / 4 - 1) := by
      have h := strideLoop_len_le0 (fun s => s.filteredData 6) _ abort
        filteredData.fast.length (stepOf filteredData.fast.length M)
        (fun i s => (fastBody_len filteredData.fast ffGains type startTimes
          (ffGains.getD 2 0) (minAcceleration filteredData.fast)
          (maxAcceleration filteredData.fast) i s).1 6)
        (fun s => (fastBody_len filteredData.fast ffGains type startTimes
          (ffGains.getD 2 0) (minAcceleration filteredData.fast)
          (maxAcceleration filteredData.fast) 0 s).2.2.2)
        filteredData.fast.length c1 st1 ((M + 3) / 4)
        (stepOf_mul_bound filteredData.fast.length M hM)
      rw [h2] at h
      exact h
    have Beq : ∀ j : Fin 7, j ≠ 1 → j ≠ 4 → j ≠ 5 → j ≠ 6 →
        st2.filteredData j = st1.filteredData j := by
      intro j ha hb hc hd
      have h := strideLoop_proj (fun s => s.filteredData j) _ abort
        filteredData.fast.length (stepOf filteredData.fast.length M)
        (fun i s => (fastBody_len filteredData.fast ffGains type startTimes
          (ffGains.getD 2 0) (minAcceleration filteredData.fast)
          (maxAcceleration filteredData.fast) i s).2.2.1 j ha hb hc hd)
        filteredData.fast.length 0 c1 st1
      rw [h2] at h
      exact h
    have Braw : st2.rawData = fun _ => [] := by
      have h := strideLoop_proj (fun s => s.rawData) _ abort
        filteredData.fast.length (stepOf filteredData.fast.length M)
        (fun i s => (fastBody_len filteredData.fast ffGains type startTimes
          (ffGains.getD 2 0) (minAcceleration filteredData.fast)
          (maxAcceleration filteredData.fast) i s).2.1)
        filteredData.fast.length 0 c1 st1
      rw [h2] at h
      rw [h, Araw]
    have Bfil : ∀ j : Fin 7, (st2.filteredData j).length ≤ M := by
      intro j
      fin_cases j
      · rw [Beq _ (by decide) (by decide) (by decide) (by decide)]
        exact le_trans (A1 _) hKM
      · have hb := B1 ⟨1, by norm_num⟩
        rw [A1eq ⟨1, by norm_num⟩ (by decide) (by decide) (by decide)
          (by decide)] at hb
        simp at hb
        exact le_trans hb hKM
      · rw [Beq _ (by decide) (by decide) (by decide) (by decide)]
        exact le_trans (A1 _) hKM
      · rw [Beq _ (by decide) (by decide) (by decide) (by decide)]
        exact le_trans (A1 _) hKM
      · have hb := B1 ⟨4, by norm_num⟩
        rw [A1eq ⟨4, by norm_num⟩ (by decide) (by decide) (by decide)
          (by decide)] at hb
        simp at hb
        exact le_trans hb hKM
      · have hb := B1 ⟨5, by norm_num⟩
        rw [A1eq ⟨5, by norm_num⟩ (by decide) (by decide) (by decide)
          (by decide)] at hb
        simp at hb
        exact le_trans hb hKM
      · have h6 : (st2.filteredData 6).length ≤ M := by
          have hx := A6
          have hy := B6
          omega
        exact h6
    cases b2 with
    | true =>
      intro j
      refine ⟨Bfil j, ?_⟩
      rw [Braw]
      simp
    | false =>
      dsimp only
      intro j
      have htail := setDataTail_len M
        (ModelOf mkSimple mkElevator mkArm ffGains type) rawData startTimes
        (stepOf filteredData.fast.length M)
        (min ((filteredData.slow.headD default).timestamp)
          ((filteredData.fast.headD default).timestamp))
        (max ((filteredData.slow.getLastD default).timestamp)
          ((filteredData.fast.getLastD default).timestamp))
        (GetMeanTimeDelta filteredData) abort st2 c2 hM
      obtain ⟨htf, htr⟩ := htail
      constructor
      · rw [htf]
        exact Bfil j
      · have h := htr j
        rw [Braw] at h
        simp only [List.length_nil] at h
        omega

/-- Witness for C8 at a concrete input. -/
theorem claim_C8_witness :
    (1 : ℕ) ≤ 8
    ∧ ((∀ n : ℕ, 1 ≤ n → 1 ≤ stepOf n 8)
      ∧ ∀ j : Fin 7,
        ((SetData 8 trivSim3 trivSim4 trivSim4 preState ⟨[sampleA], [sampleA]⟩
            ⟨[sampleA], [sampleA]⟩ [] [] AnalysisType.kSimple
            (fun _ => false)).filteredData j).length ≤ 8
        ∧ ((SetData 8 trivSim3 trivSim4 trivSim4 preState ⟨[sampleA], [sampleA]⟩
            ⟨[sampleA], [sampleA]⟩ [] [] AnalysisType.kSimple
            (fun _ => false)).rawData j).length ≤ 8) :=
  ⟨by norm_num,
   claim_C8 (ℚ × ℚ) 8 trivSim3 trivSim4 trivSim4 preState ⟨[sampleA], [sampleA]⟩
     ⟨[sampleA], [sampleA]⟩ [] [] AnalysisType.kSimple (fun _ => false)
     (by norm_num)⟩

/-- The claim's description of the timestep-delta series of one run: a
    sample contributes exactly when it is not the first sample, its dt is
    strictly positive and its timestamp is no start-boundary timestamp; the
    point is (timestamp, dt in milliseconds). -/
def ClaimDtPoints (run : List PreparedData) (startTimes : List ℚ) :
    List (ℚ × ℚ) :=
  run.enum.filterMap fun p =>
    if 0 < p.1 ∧ 0 < p.2.dt ∧ p.2.timestamp ∉ startTimes then
      some (p.2.timestamp, 1000 * p.2.dt)
    else none

/-- The tail of ClaimDtPoints from sample index i on. -/
def ClaimDtAux (run : List PreparedData) (startTimes : List ℚ) (i : ℕ) :
    List (ℚ × ℚ) :=
  ((run.drop i).enumFrom i).filterMap fun p =>
    if 0 < p.1 ∧ 0 < p.2.dt ∧ p.2.timestamp ∉ startTimes then
      some (p.2.timestamp, 1000 * p.2.dt)
    else none

lemma claimDtAux_nil (run : List PreparedData) (startTimes : List ℚ) (i : ℕ)
    (h : run.length ≤ i) : ClaimDtAux run startTimes i = [] := by
  unfold ClaimDtAux
  rw [List.drop_eq_nil_of_le h]
  rfl

lemma claimDtAux_step (run : List PreparedData) (startTimes : List ℚ) (i : ℕ)
    (h : i < run.length) :
    ClaimDtAux run startTimes i
      = (if 0 < i ∧ 0 < (run.getD i default).dt
            ∧ (run.getD i default).timestamp ∉ startTimes then
          [((run.getD i default).timestamp, 1000 * (run.getD i default).dt)]
        else [])
        ++ ClaimDtAux run startTimes (i + 1) := by
  have hd : run.getD i default = run[i] := by
    simp [List.getD_eq_getElem?_getD, List.getElem?_eq_getElem h]
  unfold ClaimDtAux
  rw [List.drop_eq_getElem_cons h]
  rw [show (run[i] :: run.drop (i + 1)).enumFrom i
      = (i, run[i]) :: (run.drop (i + 1)).enumFrom (i + 1) from rfl]
  rw [hd]
  by_cases hc : 0 < i ∧ 0 < run[i].dt ∧ run[i].timestamp ∉ startTimes
  · simp [List.filterMap_cons, hc]
  · simp [List.filterMap_cons, hc]

lemma slowBody_dt (slow : List PreparedData) (ffGains : List ℚ)
    (type : AnalysisType) (startTimes : List ℚ) (Kv mn mx : ℚ) (i : ℕ)
    (st : PlotState) :
    (SlowBody slow ffGains type startTimes Kv mn mx i st).filteredData 6
      = st.filteredData 6
        ++ (if 0 < i ∧ 0 < (slow.getD i default).dt
              ∧ (slow.getD i default).timestamp ∉ startTimes then
            [((slow.getD i default).timestamp, 1000 * (slow.getD i default).dt)]
          else []) := by
  simp only [SlowBody, appendFiltered,
    apply_ite (fun s : PlotState => s.filteredData 6)]
  split_ifs <;> simp +decide [Function.update_apply]

lemma fastBody_dt (fast : List PreparedData) (ffGains : List ℚ)
    (type : AnalysisType) (startTimes : List ℚ) (Ka mn mx : ℚ) (i : ℕ)
    (st : PlotState) :
    (FastBody fast ffGains type startTimes Ka mn mx i st).filteredData 6
      = st.filteredData 6
        ++ (if 0 < i ∧ 0 < (fast.getD i default).dt
              ∧ (fast.getD i default).timestamp ∉ startTimes then
            [((fast.getD i default).timestamp, 1000 * (fast.getD i default).dt)]
          else []) := by
  simp only [FastBody, appendFiltered,
    apply_ite (fun s : PlotState => s.filteredData 6)]
  split_ifs <;> simp +decide [Function.update_apply]

lemma strideLoop_dt (body : ℕ → PlotState → PlotState)
    (run : List PreparedData) (startTimes : List ℚ)
    (hbody : ∀ (i : ℕ) (st : PlotState), (body i st).filteredData 6
      = st.filteredData 6
        ++ (if 0 < i ∧ 0 < (run.getD i default).dt
              ∧ (run.getD i default).timestamp ∉ startTimes then
            [((run.getD i default).timestamp, 1000 * (run.getD i default).dt)]
          else [])) :
    ∀ (fuel i c : ℕ) (st : PlotState), run.length ≤ i + fuel →
      ((strideLoop body (fun _ => false) run.length 1 fuel i c st).1).filteredData 6
        = st.filteredData 6 ++ ClaimDtAux run startTimes i := by
  intro fuel
  induction fuel with
  | zero =>
    intro i c st hfuel
    rw [claimDtAux_nil run startTimes i (by omega)]
    simp [strideLoop]
  | succ fuel ih =>
    intro i c st hfuel
    by_cases h : i < run.length
    · simp only [strideLoop, if_pos h, Bool.false_eq_true, if_false]
      rw [ih (i + 1) (c + 1) (body i st) (by omega)]
      rw [hbody i st, claimDtAux_step run startTimes i h]
      simp [List.append_assoc]
    · simp only [strideLoop, if_neg h]
      rw [claimDtAux_nil run startTimes i (by omega)]
      simp

lemma claimDtPoints_eq_aux (run : List PreparedData) (startTimes : List ℚ) :
    ClaimDtPoints run startTimes = ClaimDtAux run startTimes 0 := by
  unfold ClaimDtPoints ClaimDtAux
  rw [List.drop_zero]
  rfl

/-- C9, corrected: the timestep-delta series only sees the samples the
    stride loop visits.  When both strides are 1 (4 * run_length does not
    exceed the budget) the series is exactly the samples that are not first,
    have positive dt and are not at a boundary timestamp - the claimed
    membership condition - in run order, slow run then fast run.  For a
    stride above 1 an unvisited sample contributes nothing even when it
    meets the claimed condition. -/
theorem claim_C9 (σ : Type) (M : ℕ) (mkSimple : ℚ → ℚ → ℚ → MechanismModel σ)
    (mkElevator mkArm : ℚ → ℚ → ℚ → ℚ → MechanismModel σ)
    (st : PlotState) (rawData filteredData : Storage) (ffGains : List ℚ)
    (startTimes : List ℚ) (type : AnalysisType) (hM : 1 ≤ M)
    (h1 : stepOf filteredData.slow.length M = 1)
    (h2 : stepOf filteredData.fast.length M = 1) :
    (SetData M mkSimple mkElevator mkArm st rawData filteredData ffGains
        startTimes type (fun _ => false)).filteredData 6
      = ClaimDtPoints filteredData.slow startTimes
        ++ ClaimDtPoints filteredData.fast startTimes := by
  simp only [SetData]
  rw [h1, h2]
  rcases hs1 : strideLoop
      (SlowBody filteredData.slow ffGains type startTimes (ffGains.getD 1 0)
        (minVelocity filteredData.slow) (maxVelocity filteredData.slow))
      (fun _ => false) filteredData.slow.length 1
      filteredData.slow.length 0 0 (ResetData st) with ⟨st1, c1, b1⟩
  have hb1 : b1 = false := by
    have h := strideLoop_false_flag
      (SlowBody filteredData.slow ffGains type startTimes (ffGains.getD 1 0)
        (minVelocity filteredData.slow) (maxVelocity filteredData.slow))
      filteredData.slow.length 1 filteredData.slow.length 0 0 (ResetData st)
    rw [hs1] at h
    exact h
  subst hb1
  have hdt1 : st1.filteredData 6
      = ClaimDtAux filteredData.slow startTimes 0 := by
    have h := strideLoop_dt
      (SlowBody filteredData.slow ffGains type startTimes (ffGains.getD 1 0)
        (minVelocity filteredData.slow) (maxVelocity filteredData.slow))
      filteredData.slow startTimes
      (fun i s => slowBody_dt filteredData.slow ffGains type startTimes
        (ffGains.getD 1 0) (minVelocity filteredData.slow)
        (maxVelocity filteredData.slow) i s)
      filteredData.slow.length 0 0 (ResetData st) (by omega)
    rw [hs1] at h
    simpa [ResetData] using h
  dsimp only
  rcases hs2 : strideLoop
      (FastBody filteredData.fast ffGains type startTimes (ffGains.getD 2 0)
        (minAcceleration filteredData.fast)
        (maxAcceleration filteredData.fast))
      (fun _ => false) filteredData.fast.length 1
      filteredData.fast.length 0 c1 st1 with ⟨st2, c2, b2⟩
  have hb2 : b2 = false := by
    have h := strideLoop_false_flag
      (FastBody filteredData.fast ffGains type startTimes (ffGains.getD 2 0)
        (minAcceleration filteredData.fast)
        (maxAcceleration filteredData.fast))
      filteredData.fast.length 1 filteredData.fast.length 0 c1 st1
    rw [hs2] at h
    exact h
  subst hb2
  have hdt2 : st2.filteredData 6
      = st1.filteredData 6 ++ ClaimDtAux filteredData.fast startTimes 0 := by
    have h := strideLoop_dt
      (FastBody filteredData.fast ffGains type startTimes (ffGains.getD 2 0)
        (minAcceleration filteredData.fast)
        (maxAcceleration filteredData.fast))
      filteredData.fast startTimes
      (fun i s => fastBody_dt filteredData.fast ffGains type startTimes
        (ffGains.getD 2 0) (minAcceleration filteredData.fast)
        (maxAcceleration filteredData.fast) i s)
      filteredData.fast.length 0 c1 st1 (by omega)
    rw [hs2] at h
    exact h
  dsimp only
  have htail := setDataTail_len M
    (ModelOf mkSimple mkElevator mkArm ffGains type) rawData startTimes 1
    (min ((filteredData.slow.headD default).timestamp)
      ((filteredData.fast.headD default).timestamp))
    (max ((filteredData.slow.getLastD default).timestamp)
      ((filteredData.fast.getLastD default).timestamp))
    (GetMeanTimeDelta filteredData) (fun _ => false) st2 c2 hM
  rw [htail.1, hdt2, hdt1, claimDtPoints_eq_aux, claimDtPoints_eq_aux]

/-- A unit-velocity sample at time 1 whose dt is positive. -/
def sampleC : PreparedData := ⟨1, 1, 0, 1, 0, 1, 0, 0⟩

/-- Witness for C9 at a concrete input. -/
theorem claim_C9_witness :
    (stepOf ([sampleA, sampleC] : List PreparedData).length 8 = 1
      ∧ stepOf ([sampleA, sampleC] : List PreparedData).length 8 = 1)
    ∧ (SetData 8 trivSim3 trivSim4 trivSim4 preState
        ⟨[sampleA, sampleC], [sampleA, sampleC]⟩
        ⟨[sampleA, sampleC], [sampleA, sampleC]⟩ [1/2, 1/2, 0] []
        AnalysisType.kSimple (fun _ => false)).filteredData 6
      = ClaimDtPoints [sampleA, sampleC] [] ++ ClaimDtPoints [sampleA, sampleC] [] :=
  ⟨⟨by simp [stepOf_two_eight], by simp [stepOf_two_eight]⟩,
   claim_C9 (ℚ × ℚ) 8 trivSim3 trivSim4 trivSim4 preState
     ⟨[sampleA, sampleC], [sampleA, sampleC]⟩
     ⟨[sampleA, sampleC], [sampleA, sampleC]⟩ [1/2, 1/2, 0] []
     AnalysisType.kSimple (by norm_num)
     (by simp [stepOf_two_eight]) (by simp [stepOf_two_eight])⟩

lemma stepOf_two_four : stepOf 2 4 = 2 := by
  unfold stepOf
  rw [show ((2 : ℕ) : ℚ) / ((4 : ℕ) : ℚ) * 4 = 2 by norm_num]
  simp

/-- Counterexample to C9 as stated: with a budget of 4 a two-sample run gets
    stride 2, so only sample 0 is visited; sample 1 has positive dt and a
    non-boundary timestamp - the claim says it contributes to the dt series -
    yet the series stays empty. -/
theorem claim_C9_counterexample :
    0 < sampleC.dt ∧ sampleC.timestamp ∉ ([] : List ℚ)
    ∧ (SetData 4 trivSim3 trivSim4 trivSim4 preState
        ⟨[sampleA, sampleC], [sampleA, sampleC]⟩
        ⟨[sampleA, sampleC], [sampleA, sampleC]⟩ [1/2, 1/2, 0] []
        AnalysisType.kSimple (fun _ => false)).filteredData 6 = [] := by
  refine ⟨by norm_num [sampleC], by simp, ?_⟩
  simp +decide [SetData, SetDataTail, strideLoop, stepOf_two_four, SlowBody,
    FastBody, RawSlowBody, RawFastBody, SetRawTimeData, appendFiltered,
    appendRaw, ResetData, VportionSlow, VportionFast, copysign, ModelOf,
    PopulateTimeDomainSim, PopulateLoop, GetMeanTimeDelta, minVelocity,
    maxVelocity, minAcceleration, maxAcceleration, sampleA, sampleC,
    trivSim3, trivSim4, Function.update, abs]
